import Mathlib

/-!
# Drive-control core of the VDM-2024 main ECU

A shallow embedding of `src/src/machine.hpp`, `src/src/machine.cpp`,
`src/src/main.cpp` and `src/src/systems_check.cpp`.

Conventions of the embedding.

* C++ `float`/`double` quantities (pedal positions, brake pressures, currents,
  tune constants) are exact rationals `ℚ`; rounding is not modelled.
* `iCANflex` is the car object: the values its getters return during one
  control cycle together with the two values written to the inverter
  (`setDriveEnable`, `setRCurrent`).
* The repository holds two revisions of the state machine.  `machine.hpp`
  (states `DRIVE_STANDBY`/`DRIVE_ACTIVE`, tune passed as `Tune&`) is embedded
  in namespace `MachineHpp`; `machine.cpp` (states `DRIVE_NULL`/`DRIVE_TORQUE`,
  tune held in global arrays), which is the revision `main.cpp` dispatches to,
  is embedded in namespace `MachineCpp`.
* `pow` comes from the C maths library, not from the repository: it is a
  parameter of the functions that call it.
-/

/-! ## Data model -/

/-- Drive modes, listed in `main.cpp` (the `mode_to_string` table). -/
inductive Mode where
  | TESTING | LAUNCH | ENDURANCE | AUTOX | SKIDPAD | ACC | PIT
  deriving DecidableEq, Repr

/-- Motor controller node: the values read from it and the two command values
written by `setDriveEnable` and `setRCurrent`. -/
structure DTI where
  ERPM : ℚ
  DCCurrent : ℚ
  Age : Nat
  DriveEnable : Int
  RCurrent : ℚ
  deriving DecidableEq, Repr

/-- Pedal node: both accelerator sensors, the combined throttle value returned
by `getThrottle`, and the two brake pressures. -/
structure PEDALS where
  APPS1 : ℚ
  APPS2 : ℚ
  Throttle : ℚ
  BrakePressureF : ℚ
  BrakePressureR : ℚ
  Age : Nat
  deriving DecidableEq, Repr

/-- Accumulator control unit. -/
structure ACU where
  Precharging : Bool
  PrechargeDone : Bool
  AccumulatorVoltage : ℚ
  MaxChargeCurrent : ℚ
  Age : Nat
  deriving DecidableEq, Repr

/-- A CAN node of which only the message age is read. -/
structure Node where
  Age : Nat
  deriving DecidableEq, Repr

/-- The car object handed to every step function. -/
structure iCANflex where
  DTI : DTI
  ECU : Node
  PEDALS : PEDALS
  ACU1 : ACU
  BCM1 : Node
  ENERGY_METER : Node
  WFL : Node
  WFR : Node
  WRL : Node
  WRR : Node
  DASHBOARD : Node
  GPS1 : Node
  deriving DecidableEq, Repr

/-- `Car.DTI.setDriveEnable(v)`. -/
def iCANflex.setDriveEnable (Car : iCANflex) (v : Int) : iCANflex :=
  { Car with DTI := { Car.DTI with DriveEnable := v } }

/-- `Car.DTI.setRCurrent(c)`. -/
def iCANflex.setRCurrent (Car : iCANflex) (c : ℚ) : iCANflex :=
  { Car with DTI := { Car.DTI with RCurrent := c } }

/-- Torque-shaping constants of one throttle map. -/
structure TorqueProfile where
  K : ℚ
  P : ℚ
  B : ℚ
  deriving DecidableEq, Repr

/-- Conversion of a floating value to a C++ `int` argument: the fractional
part is discarded, rounding toward zero. -/
def toInt (q : ℚ) : Int :=
  if 0 ≤ q then ⌊q⌋ else ⌈q⌉

/-- Dashboard side of `CANComms`: the popup codes sent so far. -/
structure CANComms where
  popups : List Nat
  deriving DecidableEq, Repr

/-- `comms.sendDashboardPopup(code)`. -/
def CANComms.sendDashboardPopup (comms : CANComms) (code : Nat) : CANComms :=
  { comms with popups := comms.popups ++ [code] }

/-- Modelled from the spec: the `Tune` class of `tune.hpp`, which is not in the
tree.  The spec describes it as holding the active torque-shaping profile, the
active current limit, the active regen level and the rev limit; the record
holds what the four getters `getActiveTorqueProfile`, `getActiveCurrentLimit`,
`getActiveRegenPower` and `revLimit` return. -/
structure Tune where
  ActiveTorqueProfile : TorqueProfile
  ActiveCurrentLimit : ℚ
  ActiveRegenPower : ℚ
  revLimit : ℚ
  deriving DecidableEq, Repr

/-! ## `machine.hpp` -/

namespace MachineHpp

/-- States named by `machine.hpp` (the enumeration itself is in `enums.h`). -/
inductive State where
  | ECU_FLASH | GLV_ON | TS_PRECHARGE | PRECHARGING | PRECHARGE_COMPLETE
  | DRIVE_STANDBY | DRIVE_ACTIVE | DRIVE_REGEN | ERROR
  deriving DecidableEq, Repr

/-- `State ecu_flash(iCANflex& Car)`: both writes are commented out. -/
def ecu_flash (Car : iCANflex) : State × iCANflex :=
  (State.ECU_FLASH, Car)

/-- `State glv_on(iCANflex& Car)`: both writes are commented out. -/
def glv_on (Car : iCANflex) : State × iCANflex :=
  (State.GLV_ON, Car)

/-- `State ts_precharge(iCANflex& Car)`. -/
def ts_precharge (Car : iCANflex) : State × iCANflex :=
  let Car := Car.setDriveEnable 0
  let Car := Car.setRCurrent 0
  if Car.ACU1.Precharging then (State.PRECHARGING, Car)
  else (State.TS_PRECHARGE, Car)

/-- `State precharging(iCANflex& Car)`. -/
def precharging (Car : iCANflex) : State × iCANflex :=
  let Car := Car.setDriveEnable 0
  let Car := Car.setRCurrent 0
  if Car.ACU1.PrechargeDone then (State.PRECHARGE_COMPLETE, Car)
  else (State.PRECHARGE_COMPLETE, Car)

/-- `State precharge_complete(iCANflex& Car)`. -/
def precharge_complete (Car : iCANflex) : State × iCANflex :=
  let Car := Car.setDriveEnable 0
  let Car := Car.setRCurrent 0
  (State.PRECHARGE_COMPLETE, Car)

/-- `State drive_standby(iCANflex& Car, bool& BSE_APPS_violation, Mode mode)`:
the whole body except the final `return` is commented out. -/
def drive_standby (Car : iCANflex) (BSE_APPS_violation : Bool) (_mode : Mode) :
    State × iCANflex × Bool :=
  (State.DRIVE_STANDBY, Car, BSE_APPS_violation)

/-- `float requested_torque(iCANflex& Car, float throttle, int rpm, Tune& tune)`.
The quotient `rpm/tune.revLimit()` is read as an exact quotient. -/
def requested_torque (pow : ℚ → ℚ → ℚ) (_Car : iCANflex) (throttle : ℚ) (rpm : Int)
    (tune : Tune) : ℚ :=
  let tp := tune.ActiveTorqueProfile
  let k := tp.K
  let p := tp.P
  let b := tp.B
  let max_current := tune.ActiveCurrentLimit
  let torque_multiplier :=
    throttle - (1 - throttle) * (throttle + b) * pow ((rpm : ℚ) / tune.revLimit) p * k
  let torque_multiplier := if torque_multiplier > 1 then 1 else torque_multiplier
  let torque_multiplier := if torque_multiplier < 0 then 0 else torque_multiplier
  torque_multiplier * max_current

/-- `State drive_active(iCANflex& Car, bool& BSE_APPS_violation, Mode mode,
Tune& tune, CANComms& comms)`.  `abs` is the Arduino macro, the absolute value
of its floating argument; the `double` passed for `int rpm` is truncated. -/
def drive_active (pow : ℚ → ℚ → ℚ) (Car : iCANflex) (BSE_APPS_violation : Bool)
    (_mode : Mode) (tune : Tune) (comms : CANComms) :
    State × iCANflex × Bool × CANComms :=
  let a1 := Car.PEDALS.APPS1
  let a2 := Car.PEDALS.APPS2
  let throttle := a1
  let brake := (Car.PEDALS.BrakePressureF + Car.PEDALS.BrakePressureR) / 2
  if |a1 - 2 * a2| > 1 / 10 then
    (State.DRIVE_STANDBY, Car, BSE_APPS_violation, comms.sendDashboardPopup 1)
  else if brake > 1 / 20 ∧ a1 > 1 / 4 then
    (State.DRIVE_STANDBY, Car, true, comms)
  else
    let Car := Car.setDriveEnable 1
    let Car := Car.setRCurrent
      (requested_torque pow Car throttle (toInt (Car.DTI.ERPM / 10)) tune)
    (State.DRIVE_ACTIVE, Car, BSE_APPS_violation, comms)

/-- `float requested_regenerative_torque(iCANflex& Car, float brake, int rpm)`. -/
def requested_regenerative_torque (_Car : iCANflex) (_brake : ℚ) (_rpm : Int) : ℚ :=
  0

/-- `State drive_regen(iCANflex& Car, bool& BSE_APPS_violation, Mode mode,
Tune& tune)`. -/
def drive_regen (Car : iCANflex) (BSE_APPS_violation : Bool) (_mode : Mode)
    (tune : Tune) : State × iCANflex × Bool :=
  let brake := (Car.PEDALS.BrakePressureF + Car.PEDALS.BrakePressureR) / 2
  let throttle := Car.PEDALS.APPS1
  if throttle > 1 / 20 then (State.DRIVE_ACTIVE, Car, BSE_APPS_violation)
  else if brake < 1 / 20 then (State.DRIVE_STANDBY, Car, BSE_APPS_violation)
  else
    let rpm := Car.DTI.ERPM / 10
    let Car := Car.setDriveEnable 1
    let Car := Car.setRCurrent
      (-1 * requested_regenerative_torque Car brake (toInt rpm) * tune.ActiveRegenPower)
    (State.DRIVE_REGEN, Car, BSE_APPS_violation)

/-- `State error(iCANflex& Car, Tune& t, bool (*errorCheck)(...),
std::unordered_set<...>& active_faults)`.  `F` is the type of the function
pointers and `call f` is the call through the pointer `f`; the set is the list
of its members in iteration order, and `erase` drops the member equal to
`errorCheck`. -/
def error {F : Type} [DecidableEq F] (call : F → iCANflex → Tune → Bool)
    (Car : iCANflex) (t : Tune) (errorCheck : F) (active_faults : List F) :
    State × iCANflex × List F :=
  let Car := Car.setDriveEnable 0
  let Car := Car.setRCurrent 0
  if call errorCheck Car t then (State.ERROR, Car, active_faults)
  else (State.GLV_ON, Car, active_faults.filter (fun f => f ≠ errorCheck))

end MachineHpp

/-! ## `machine.cpp` -/

namespace MachineCpp

/-- States named by `machine.cpp` and by the `state_to_string` table of
`main.cpp`. -/
inductive State where
  | ECU_FLASH | GLV_ON | TS_PRECHARGE | PRECHARGING | PRECHARGE_COMPLETE
  | DRIVE_NULL | DRIVE_TORQUE | DRIVE_REGEN | ERROR
  deriving DecidableEq, Repr

/-- The globals `machine.cpp` reads and writes: the three tune arrays of four
entries each, the three selection indices and `REV_LIMIT`. -/
structure Globals where
  TORQUE_PROFILES : Fin 4 → TorqueProfile
  POWER_LEVELS : Fin 4 → ℚ
  REGEN_LEVELS : Fin 4 → ℚ
  throttle_map : Fin 4
  power_level : Fin 4
  regen_level : Fin 4
  REV_LIMIT : ℚ

/-- The `stringstream` over the text of `gr24.txt`: the numbers that can still
be read, in order, and the fail flag. -/
structure stringstream where
  tokens : List ℚ
  fail : Bool
  deriving DecidableEq, Repr

/-- One `iss >> x` for a float `x`: the new value of `x` and the stream
afterwards.  A failed stream leaves `x` as it was; so does a read at the end of
the input, which sets the fail flag. -/
def stringstream.extract (iss : stringstream) (x : ℚ) : ℚ × stringstream :=
  if iss.fail then (x, iss)
  else
    match iss.tokens with
    | [] => (x, { iss with fail := true })
    | t :: ts => (t, { iss with tokens := ts })

/-- The wait `while(!SD.begin(BUILTIN_SDCARD))` over the results of the
successive `SD.begin` calls: `true` when one of them succeeds, `false` when the
results run out with the card still not initialised. -/
def SD_wait : List Bool → Bool
  | [] => false
  | true :: _ => true
  | false :: rest => SD_wait rest

/-- First loop of `ecu_flash`: `iss >> k >> p >> b` into `TORQUE_PROFILES[i]`
for the indices `is`; `junk` is the value of the uninitialised locals. -/
def read_torque_profiles (junk : ℚ) :
    List (Fin 4) → stringstream → (Fin 4 → TorqueProfile) →
      stringstream × (Fin 4 → TorqueProfile)
  | [], iss, arr => (iss, arr)
  | i :: is, iss, arr =>
    let (k, iss) := iss.extract junk
    let (p, iss) := iss.extract junk
    let (b, iss) := iss.extract junk
    read_torque_profiles junk is iss (Function.update arr i ⟨k, p, b⟩)

/-- Second and third loop of `ecu_flash`: one `iss >> x` into `arr[i]` for the
indices `is`. -/
def read_levels (junk : ℚ) :
    List (Fin 4) → stringstream → (Fin 4 → ℚ) → stringstream × (Fin 4 → ℚ)
  | [], iss, arr => (iss, arr)
  | i :: is, iss, arr =>
    let (x, iss) := iss.extract junk
    read_levels junk is iss (Function.update arr i x)

/-- `State ecu_flash(iCANflex& Car)`.  `SD_begin` lists the results of the
successive `SD.begin` calls and `gr24` the numbers in the file; the result is
`none` while the card has not initialised (the call has not returned). -/
def ecu_flash (SD_begin : List Bool) (gr24 : List ℚ) (junk : ℚ) (Car : iCANflex)
    (G : Globals) : Option (State × iCANflex × Globals) :=
  let Car := Car.setDriveEnable 0
  let Car := Car.setRCurrent 0
  if SD_wait SD_begin then
    let iss : stringstream := ⟨gr24, false⟩
    let (iss, tps) := read_torque_profiles junk [0, 1, 2, 3] iss G.TORQUE_PROFILES
    let (iss, pls) := read_levels junk [0, 1, 2, 3] iss G.POWER_LEVELS
    let (_, rls) := read_levels junk [0, 1, 2, 3] iss G.REGEN_LEVELS
    some (State.GLV_ON, Car,
      { G with TORQUE_PROFILES := tps, POWER_LEVELS := pls, REGEN_LEVELS := rls })
  else none

/-- `State glv_on(iCANflex& Car)`. -/
def glv_on (Car : iCANflex) : State × iCANflex :=
  let Car := Car.setDriveEnable 0
  let Car := Car.setRCurrent 0
  (State.TS_PRECHARGE, Car)

/-- `State ts_precharge(iCANflex& Car)`. -/
def ts_precharge (Car : iCANflex) : State × iCANflex :=
  let Car := Car.setDriveEnable 0
  let Car := Car.setRCurrent 0
  (State.PRECHARGING, Car)

/-- `State precharging(iCANflex& Car)`. -/
def precharging (Car : iCANflex) : State × iCANflex :=
  let Car := Car.setDriveEnable 0
  let Car := Car.setRCurrent 0
  (State.PRECHARGE_COMPLETE, Car)

/-- `State precharge_complete(iCANflex& Car)`. -/
def precharge_complete (Car : iCANflex) : State × iCANflex :=
  let Car := Car.setDriveEnable 0
  let Car := Car.setRCurrent 0
  (State.DRIVE_NULL, Car)

/-- `State drive_null(iCANflex& Car, bool& BSE_APPS_violation, Mode mode)`. -/
def drive_null (Car : iCANflex) (BSE_APPS_violation : Bool) (_mode : Mode) :
    State × iCANflex × Bool :=
  let Car := Car.setDriveEnable 0
  let Car := Car.setRCurrent 0
  let throttle := (Car.PEDALS.APPS1 + Car.PEDALS.APPS2) / 2
  let brake := (Car.PEDALS.BrakePressureF + Car.PEDALS.BrakePressureR) / 2
  if !BSE_APPS_violation ∧ throttle > 1 / 20 then
    (State.DRIVE_TORQUE, Car, BSE_APPS_violation)
  else if !BSE_APPS_violation ∧ brake > 1 / 20 then
    (State.DRIVE_REGEN, Car, BSE_APPS_violation)
  else if BSE_APPS_violation then
    if throttle < 1 / 20 then (State.DRIVE_NULL, Car, false)
    else (State.DRIVE_NULL, Car, BSE_APPS_violation)
  else
    (State.DRIVE_NULL, Car, BSE_APPS_violation)

/-- `float requested_torque(iCANflex& Car, float throttle, int rpm)`.  The
quotient `rpm/REV_LIMIT` is read as an exact quotient. -/
def requested_torque (pow : ℚ → ℚ → ℚ) (G : Globals) (_Car : iCANflex) (throttle : ℚ)
    (rpm : Int) : ℚ :=
  let k := (G.TORQUE_PROFILES G.throttle_map).K
  let p := (G.TORQUE_PROFILES G.throttle_map).P
  let b := (G.TORQUE_PROFILES G.throttle_map).B
  let current := G.POWER_LEVELS G.power_level
  let tq_percent :=
    throttle - (1 - throttle) * (throttle + b) * pow ((rpm : ℚ) / G.REV_LIMIT) p * k
  let tq_percent := if tq_percent > 1 then 1 else tq_percent
  let tq_percent := if tq_percent < 0 then 0 else tq_percent
  tq_percent * current

/-- `State drive_torque(iCANflex& Car, bool& BSE_APPS_violation, Mode mode)`.
`abs` is the Arduino macro, the absolute value of its floating argument; the
`double` passed for `int rpm` is truncated.  The local `power` is not used. -/
def drive_torque (pow : ℚ → ℚ → ℚ) (G : Globals) (Car : iCANflex)
    (BSE_APPS_violation : Bool) (_mode : Mode) : State × iCANflex × Bool :=
  let a1 := Car.PEDALS.APPS1
  let a2 := Car.PEDALS.APPS2
  let throttle := Car.PEDALS.Throttle
  let brake := (Car.PEDALS.BrakePressureF + Car.PEDALS.BrakePressureR) / 2
  if |a1 - 2 * a2| > 1 / 10 then
    (State.DRIVE_NULL, Car, BSE_APPS_violation)
  else if brake > 1 / 20 ∧ a1 > 1 / 4 then
    (State.DRIVE_NULL, Car, true)
  else
    let Car := Car.setDriveEnable 1
    let Car := Car.setRCurrent
      (requested_torque pow G Car throttle (toInt (Car.DTI.ERPM / 10)))
    (State.DRIVE_TORQUE, Car, BSE_APPS_violation)

/-- `float requested_regenerative_torque(iCANflex& Car, float brake, int rpm)`. -/
def requested_regenerative_torque (_Car : iCANflex) (_brake : ℚ) (_rpm : Int) : ℚ :=
  0

/-- `State drive_regen(iCANflex& Car, bool& BSE_APPS_violation, Mode mode)`. -/
def drive_regen (G : Globals) (Car : iCANflex) (BSE_APPS_violation : Bool)
    (_mode : Mode) : State × iCANflex × Bool :=
  let brake := (Car.PEDALS.BrakePressureF + Car.PEDALS.BrakePressureR) / 2
  let throttle := Car.PEDALS.Throttle
  if throttle > 1 / 20 then (State.DRIVE_TORQUE, Car, BSE_APPS_violation)
  else if brake < 1 / 20 then (State.DRIVE_NULL, Car, BSE_APPS_violation)
  else
    let rpm := Car.DTI.ERPM / 10
    let Car := Car.setDriveEnable 1
    let Car := Car.setRCurrent
      (-1 * requested_regenerative_torque Car brake (toInt rpm)
        * G.REGEN_LEVELS G.regen_level)
    (State.DRIVE_REGEN, Car, BSE_APPS_violation)

/-- `State error(iCANflex& Car, bool (*errorCheck)(const iCANflex& c))`, with
the global set `active_faults` passed in and out.  `F` is the type of the
function pointers and `call f` is the call through the pointer `f`; the set is
the list of its members in iteration order, and `erase` drops the member equal
to `errorCheck`. -/
def error {F : Type} [DecidableEq F] (call : F → iCANflex → Bool)
    (Car : iCANflex) (errorCheck : F) (active_faults : List F) :
    State × iCANflex × List F :=
  let Car := Car.setDriveEnable 0
  let Car := Car.setRCurrent 0
  if call errorCheck Car then (State.ERROR, Car, active_faults)
  else (State.GLV_ON, Car, active_faults.filter (fun f => f ≠ errorCheck))

end MachineCpp

/-! ## `systems_check.cpp` -/

namespace SystemsCheck

/-- `const int CAN_MS_THRESHOLD = 100; // msec` (`systems_check.h`). -/
def CAN_MS_THRESHOLD : Nat := 100

/-- `bool SystemsCheck::rtd_brake_fault(const iCANflex& Car)`. -/
def rtd_brake_fault (Car : iCANflex) : Bool :=
  if Car.PEDALS.APPS1 > 1 / 20 ∨ Car.PEDALS.APPS2 > 1 / 20 ∨
      Car.PEDALS.BrakePressureF ≤ 1 / 20 ∨ Car.PEDALS.BrakePressureR ≤ 1 / 20 then
    true
  else false

/-- `bool SystemsCheck::AMS_fault(const iCANflex& Car)`; `r1`, `r2`, `r3` are
the values of the first, second and third `analogRead(AMS_OK_PIN)`. -/
def AMS_fault (r1 r2 r3 : Int) : Bool :=
  if r1 < 310 then true
  else if r2 > 730 ∧ r3 < 760 then false
  else true

/-- `bool SystemsCheck::IMD_fault(const iCANflex& Car)`; `r1`, `r2`, `r3` are
the values of the first, second and third `analogRead(IMD_OK_PIN)`. -/
def IMD_fault (r1 r2 r3 : Int) : Bool :=
  if r1 < 310 then true
  else if r2 > 730 ∧ r3 < 760 then false
  else true

/-- `bool SystemsCheck::BSPD_fault(const iCANflex& Car)`; `r1`, `r2`, `r3` are
the values of the first, second and third `analogRead(BSPD_OK_PIN)`. -/
def BSPD_fault (r1 r2 r3 : Int) : Bool :=
  if r1 < 310 then true
  else if r2 > 730 ∧ r3 < 760 then false
  else true

/-- `bool SystemsCheck::SDC_opened(const iCANflex& Car)`. -/
def SDC_opened (_Car : iCANflex) : Bool := false

/-- `bool SystemsCheck::rev_limit_exceeded(const iCANflex& Car)`; `REV_LIMIT`
is defined outside the tree and is a parameter. -/
def rev_limit_exceeded (REV_LIMIT : ℚ) (Car : iCANflex) : Bool :=
  decide (Car.DTI.ERPM / 10 ≥ REV_LIMIT)

/-- `bool SystemsCheck::critical_can_failure(const iCANflex& Car)`. -/
def critical_can_failure (Car : iCANflex) : Bool :=
  decide (Car.DTI.Age > CAN_MS_THRESHOLD) ||
  decide (Car.ECU.Age > CAN_MS_THRESHOLD) ||
  decide (Car.PEDALS.Age > CAN_MS_THRESHOLD) ||
  decide (Car.ACU1.Age > CAN_MS_THRESHOLD) ||
  decide (Car.BCM1.Age > CAN_MS_THRESHOLD) ||
  decide (Car.ENERGY_METER.Age > CAN_MS_THRESHOLD)

/-- `bool SystemsCheck::warn_can_failure(const iCANflex& Car)`. -/
def warn_can_failure (Car : iCANflex) : Bool :=
  decide (Car.WFL.Age > CAN_MS_THRESHOLD) ||
  decide (Car.WFR.Age > CAN_MS_THRESHOLD) ||
  decide (Car.WRL.Age > CAN_MS_THRESHOLD) ||
  decide (Car.WRR.Age > CAN_MS_THRESHOLD) ||
  decide (Car.DASHBOARD.Age > CAN_MS_THRESHOLD) ||
  decide (Car.GPS1.Age > CAN_MS_THRESHOLD)

end SystemsCheck

/-! ## `main.cpp` -/

namespace Main

open MachineCpp

/-- The globals of `main.cpp` (`state`, `mode`, `errorCheck`,
`BSE_APPS_violation`, the steering-wheel settings) together with the objects it
shares with `machine.cpp`: the car, the tune globals, the set `active_faults`
(its members in iteration order, so `begin()` is the head) and the level of
`SOFTWARE_OK_CONTROL_PIN` (`true` for `HIGH`).  `errorCheck` is `none` while
the pointer has not been assigned. -/
structure Program (F : Type) where
  state : State
  mode : Mode
  errorCheck : Option F
  BSE_APPS_violation : Bool
  Car : iCANflex
  G : Globals
  active_faults : List F
  SOFTWARE_OK_CONTROL_PIN : Bool
  THROTTLE_MAPPING : Nat
  REGEN_LEVEL : Nat
  PWR_LEVEL : Nat
  TC_LEVEL : Nat

/-- `State sendToError(bool (*erFunc)(const iCANflex& Car))`. -/
def sendToError {F : Type} (P : Program F) (erFunc : F) : State × Program F :=
  (State.ERROR, { P with errorCheck := some erFunc })

/-- The `switch (state)` of `loop`.  The result is `none` when `ecu_flash` has
not returned, and when `error` is entered with `errorCheck` unassigned. -/
def dispatch {F : Type} [DecidableEq F] (pow : ℚ → ℚ → ℚ) (call : F → iCANflex → Bool)
    (SD_begin : List Bool) (gr24 : List ℚ) (junk : ℚ) (P : Program F) :
    Option (Program F) :=
  match P.state with
  | State.ERROR =>
    match P.errorCheck with
    | none => none
    | some f =>
      let (s, Car, af) := error call P.Car f P.active_faults
      some { P with state := s, Car := Car, active_faults := af }
  | State.ECU_FLASH =>
    match ecu_flash SD_begin gr24 junk P.Car P.G with
    | none => none
    | some (s, Car, G) => some { P with state := s, Car := Car, G := G }
  | State.GLV_ON =>
    let (s, Car) := glv_on P.Car
    some { P with state := s, Car := Car }
  | State.TS_PRECHARGE =>
    let (s, Car) := ts_precharge P.Car
    some { P with state := s, Car := Car }
  | State.PRECHARGING =>
    let (s, Car) := precharging P.Car
    some { P with state := s, Car := Car }
  | State.PRECHARGE_COMPLETE =>
    let (s, Car) := precharge_complete P.Car
    some { P with state := s, Car := Car }
  | State.DRIVE_NULL =>
    let (s, Car, v) := drive_null P.Car P.BSE_APPS_violation P.mode
    some { P with state := s, Car := Car, BSE_APPS_violation := v }
  | State.DRIVE_TORQUE =>
    let (s, Car, v) := drive_torque pow P.G P.Car P.BSE_APPS_violation P.mode
    some { P with state := s, Car := Car, BSE_APPS_violation := v }
  | State.DRIVE_REGEN =>
    let (s, Car, v) := drive_regen P.G P.Car P.BSE_APPS_violation P.mode
    some { P with state := s, Car := Car, BSE_APPS_violation := v }

/-- `void loop()`.  The four `SystemsCheck::` calls that open it are not in the
tree: `system_checks Car af` is the set `active_faults` they leave, given the
car and the set `af` they find. -/
def loop {F : Type} [DecidableEq F] (pow : ℚ → ℚ → ℚ) (call : F → iCANflex → Bool)
    (system_checks : iCANflex → List F → List F)
    (SD_begin : List Bool) (gr24 : List ℚ) (junk : ℚ) (P : Program F) :
    Option (Program F) :=
  let P := { P with active_faults := system_checks P.Car P.active_faults }
  let (s, P) :=
    match P.active_faults with
    | [] => (P.state, P)
    | f :: _ => sendToError P f
  let P := { P with state := s }
  let P := { P with SOFTWARE_OK_CONTROL_PIN := if s = State.ERROR then false else true }
  let P := { P with THROTTLE_MAPPING := 0, REGEN_LEVEL := 0, PWR_LEVEL := 0, TC_LEVEL := 0,
                    mode := Mode.ENDURANCE }
  dispatch pow call SD_begin gr24 junk P

end Main

/-! ## Concrete data used to evaluate the definitions -/

/-- Pointers to the predicates of `systems_check.cpp` that take the car alone. -/
inductive FaultPtr where
  | rtd_brake_fault | critical_can_failure | warn_can_failure | SDC_opened
  deriving DecidableEq, Repr

/-- The call through a `FaultPtr`. -/
def FaultPtr.call : FaultPtr → iCANflex → Bool
  | FaultPtr.rtd_brake_fault, Car => SystemsCheck.rtd_brake_fault Car
  | FaultPtr.critical_can_failure, Car => SystemsCheck.critical_can_failure Car
  | FaultPtr.warn_can_failure, Car => SystemsCheck.warn_can_failure Car
  | FaultPtr.SDC_opened, Car => SystemsCheck.SDC_opened Car

/-- Modelled from the spec: the rebuild of the active set by the Fault
Classifier, in place of the `SystemsCheck::` calls of `loop`, which are not in
the tree.  The spec has the FaultSet rebuilt every cycle, a fault identifier
being in the set exactly when its predicate evaluated true; `checks` lists the
Critical-class predicates and the set found is discarded. -/
def rebuild_checks {F : Type} (call : F → iCANflex → Bool) (checks : List F)
    (Car : iCANflex) (_af : List F) : List F :=
  checks.filter (fun f => call f Car)

/-- The value of `pow(y, p)` for a whole exponent `p`. -/
def whole_pow (y p : ℚ) : ℚ := y ^ (toInt p).toNat

/-- A car at rest: pedals released, brakes released, every message fresh. -/
def restCar : iCANflex where
  DTI := ⟨0, 0, 0, 0, 0⟩
  ECU := ⟨0⟩
  PEDALS := ⟨0, 0, 0, 0, 0, 0⟩
  ACU1 := ⟨false, false, 0, 0, 0⟩
  BCM1 := ⟨0⟩
  ENERGY_METER := ⟨0⟩
  WFL := ⟨0⟩
  WFR := ⟨0⟩
  WRL := ⟨0⟩
  WRR := ⟨0⟩
  DASHBOARD := ⟨0⟩
  GPS1 := ⟨0⟩

/-- The car `restCar` with the given pedal readings; `getThrottle` reads
`apps1`. -/
def pedalCar (apps1 apps2 brakeF brakeR : ℚ) : iCANflex :=
  { restCar with PEDALS := ⟨apps1, apps2, apps1, brakeF, brakeR, 0⟩ }

/-- A tune with profile `K = 1/2`, `P = 2`, `B = 1/10`, a limit of 100 A, a
regen level of 1/2 and a rev limit of 5500. -/
def sampleTune : Tune := ⟨⟨1 / 2, 2, 1 / 10⟩, 100, 1 / 2, 5500⟩

/-- The globals of `machine.cpp` holding the values of `sampleTune` in every
slot. -/
def sampleGlobals : MachineCpp.Globals where
  TORQUE_PROFILES := fun _ => ⟨1 / 2, 2, 1 / 10⟩
  POWER_LEVELS := fun _ => 100
  REGEN_LEVELS := fun _ => 1 / 2
  throttle_map := 0
  power_level := 0
  regen_level := 0
  REV_LIMIT := 5500

/-- A program state of `main.cpp` in state `s` with the car `Car`, the latch
`v` and the active set `af`. -/
def sampleProgram (s : MachineCpp.State) (Car : iCANflex) (v : Bool)
    (af : List FaultPtr) : Main.Program FaultPtr where
  state := s
  mode := Mode.ENDURANCE
  errorCheck := none
  BSE_APPS_violation := v
  Car := Car
  G := sampleGlobals
  active_faults := af
  SOFTWARE_OK_CONTROL_PIN := true
  THROTTLE_MAPPING := 0
  REGEN_LEVEL := 0
  PWR_LEVEL := 0
  TC_LEVEL := 0

/-- A moving car with the brakes held, the accelerator released and the
inverter frame 101 ms old; the last command was drive-enable 1 at 50 A. -/
def staleCar : iCANflex :=
  { pedalCar 0 0 (1 / 2) (1 / 2) with DTI := ⟨0, 0, 101, 1, 50⟩ }

/-- The car `restCar` with every drive-critical node at age `crit` and every
other node at age `other`. -/
def agedCar (crit other : Nat) : iCANflex :=
  { restCar with
    DTI := ⟨0, 0, crit, 0, 0⟩
    ECU := ⟨crit⟩
    PEDALS := ⟨0, 0, 0, 0, 0, crit⟩
    ACU1 := ⟨false, false, 0, 0, crit⟩
    BCM1 := ⟨crit⟩
    ENERGY_METER := ⟨crit⟩
    WFL := ⟨other⟩
    WFR := ⟨other⟩
    WRL := ⟨other⟩
    WRR := ⟨other⟩
    DASHBOARD := ⟨other⟩
    GPS1 := ⟨other⟩ }

/-- The car `pedalCar apps1 apps2 brakeF brakeR` running at `erpm`, with the
command of the previous cycle still in place: drive-enable `enable` and
requested current `current`. -/
def drivingCar (apps1 apps2 brakeF brakeR erpm : ℚ) (enable : Int) (current : ℚ) :
    iCANflex :=
  { pedalCar apps1 apps2 brakeF brakeR with DTI := ⟨erpm, 0, 0, enable, current⟩ }

/-! ## The forward-torque formula in the words of the spec -/

/-- The spec's `clip(z, lo, hi)`. -/
def clip (z lo hi : ℚ) : ℚ := max lo (min z hi)

/-- The spec's forward-torque formula:
`requested_current = clip(x - (1 - x)*(x + b)*(y^p)*k, 0, 1) * active_current_limit`,
with `y^p` computed by `pow`. -/
def spec_requested_current (pow : ℚ → ℚ → ℚ) (x y k p b active_current_limit : ℚ) : ℚ :=
  clip (x - (1 - x) * (x + b) * pow y p * k) 0 1 * active_current_limit

/-! ## The fault set over the predicates of `systems_check.cpp` -/

/-- The readings of the three sense pins during one pass over the predicates:
for each pin the values of its first, second and third `analogRead`. -/
structure PinReads where
  AMS1 : Int
  AMS2 : Int
  AMS3 : Int
  IMD1 : Int
  IMD2 : Int
  IMD3 : Int
  BSPD1 : Int
  BSPD2 : Int
  BSPD3 : Int
  deriving DecidableEq, Repr

/-- Names of the fault predicates of `systems_check.cpp` that read the car or a
sense pin. -/
inductive FaultId where
  | critical_can_failure | warn_can_failure | rev_limit_exceeded | rtd_brake_fault
  | AMS_fault | IMD_fault | BSPD_fault
  deriving DecidableEq, Repr

/-- One evaluation of the predicate named by a `FaultId`. -/
def FaultId.eval (REV_LIMIT : ℚ) (Car : iCANflex) (pins : PinReads) : FaultId → Bool
  | FaultId.critical_can_failure => SystemsCheck.critical_can_failure Car
  | FaultId.warn_can_failure => SystemsCheck.warn_can_failure Car
  | FaultId.rev_limit_exceeded => SystemsCheck.rev_limit_exceeded REV_LIMIT Car
  | FaultId.rtd_brake_fault => SystemsCheck.rtd_brake_fault Car
  | FaultId.AMS_fault => SystemsCheck.AMS_fault pins.AMS1 pins.AMS2 pins.AMS3
  | FaultId.IMD_fault => SystemsCheck.IMD_fault pins.IMD1 pins.IMD2 pins.IMD3
  | FaultId.BSPD_fault => SystemsCheck.BSPD_fault pins.BSPD1 pins.BSPD2 pins.BSPD3

/-- Modelled from the spec: the FaultSet that one pass of the Fault Classifier
produces.  The functions that build the set (`hardware_system_critical`,
`system_faults`, `system_limits`, `system_warnings`, called by `loop`) are not
in the tree; the spec has a fault identifier in the set exactly when its
predicate evaluated true. -/
def fault_set (REV_LIMIT : ℚ) (Car : iCANflex) (pins : PinReads) : List FaultId :=
  [FaultId.critical_can_failure, FaultId.warn_can_failure, FaultId.rev_limit_exceeded,
    FaultId.rtd_brake_fault, FaultId.AMS_fault, FaultId.IMD_fault, FaultId.BSPD_fault].filter
    (fun f => f.eval REV_LIMIT Car pins)

/-- Two cars show the same snapshot to the classifier: the same message age on
every node, the same accelerator and brake readings and the same erpm. -/
def same_snapshot (Car Car2 : iCANflex) : Prop :=
  (Car.DTI.Age = Car2.DTI.Age ∧ Car.ECU.Age = Car2.ECU.Age ∧
    Car.PEDALS.Age = Car2.PEDALS.Age ∧ Car.ACU1.Age = Car2.ACU1.Age ∧
    Car.BCM1.Age = Car2.BCM1.Age ∧ Car.ENERGY_METER.Age = Car2.ENERGY_METER.Age) ∧
  (Car.WFL.Age = Car2.WFL.Age ∧ Car.WFR.Age = Car2.WFR.Age ∧ Car.WRL.Age = Car2.WRL.Age ∧
    Car.WRR.Age = Car2.WRR.Age ∧ Car.DASHBOARD.Age = Car2.DASHBOARD.Age ∧
    Car.GPS1.Age = Car2.GPS1.Age) ∧
  (Car.PEDALS.APPS1 = Car2.PEDALS.APPS1 ∧ Car.PEDALS.APPS2 = Car2.PEDALS.APPS2 ∧
    Car.PEDALS.BrakePressureF = Car2.PEDALS.BrakePressureF ∧
    Car.PEDALS.BrakePressureR = Car2.PEDALS.BrakePressureR) ∧
  Car.DTI.ERPM = Car2.DTI.ERPM

instance (Car Car2 : iCANflex) : Decidable (same_snapshot Car Car2) := by
  unfold same_snapshot
  infer_instance

/-- Pin readings in the 2.4 V band on AMS and IMD and at 0.5 V on BSPD. -/
def samplePins : PinReads := ⟨744, 744, 744, 744, 744, 744, 155, 155, 155⟩

/-! ## Torque calculator -/

/-- Clipping to `[0, 1]` as done by the two `if`s of `requested_torque`. -/
theorem clip_mul_bounds (z c : ℚ) (hc : 0 ≤ c) :
    0 ≤ (if (if z > 1 then 1 else z) < 0 then 0 else (if z > 1 then 1 else z)) * c ∧
    (if (if z > 1 then 1 else z) < 0 then 0 else (if z > 1 then 1 else z)) * c ≤ c := by
  have h0 : 0 ≤ (if (if z > 1 then 1 else z) < 0 then 0 else (if z > 1 then 1 else z)) := by
    split_ifs <;> linarith
  have h1 : (if (if z > 1 then 1 else z) < 0 then 0 else (if z > 1 then 1 else z)) ≤ 1 := by
    split_ifs <;> linarith
  constructor
  · exact mul_nonneg h0 hc
  · calc _ ≤ 1 * c := mul_le_mul_of_nonneg_right h1 hc
      _ = c := one_mul c

/-- C1: `requested_torque` is bounded.  For every throttle, every rpm and rev
limit (so every RPM load, also above 1), every torque profile, every value
`pow` returns and every non-negative active current limit, the value returned
lies in `[0, current_limit]`; this holds for `machine.hpp` and for
`machine.cpp`.  The bounds on throttle, load and profile that the claim assumes
are not needed. -/
theorem requested_torque_bounded (pow : ℚ → ℚ → ℚ) (Car : iCANflex) (throttle : ℚ)
    (rpm : Int) (tune : Tune) (G : MachineCpp.Globals)
    (htune : 0 ≤ tune.ActiveCurrentLimit) (hG : 0 ≤ G.POWER_LEVELS G.power_level) :
    (0 ≤ MachineHpp.requested_torque pow Car throttle rpm tune ∧
      MachineHpp.requested_torque pow Car throttle rpm tune ≤ tune.ActiveCurrentLimit) ∧
    (0 ≤ MachineCpp.requested_torque pow G Car throttle rpm ∧
      MachineCpp.requested_torque pow G Car throttle rpm ≤ G.POWER_LEVELS G.power_level) := by
  constructor
  · exact clip_mul_bounds _ _ htune
  · exact clip_mul_bounds _ _ hG

/-- Witness for C1: throttle 1/2 at 8000 rpm (load above 1) with `sampleTune`
and `sampleGlobals`. -/
theorem requested_torque_bounded_witness :
    ((0 : ℚ) ≤ sampleTune.ActiveCurrentLimit ∧
      (0 : ℚ) ≤ sampleGlobals.POWER_LEVELS sampleGlobals.power_level) ∧
    ((0 ≤ MachineHpp.requested_torque whole_pow restCar (1 / 2) 8000 sampleTune ∧
      MachineHpp.requested_torque whole_pow restCar (1 / 2) 8000 sampleTune
        ≤ sampleTune.ActiveCurrentLimit) ∧
    (0 ≤ MachineCpp.requested_torque whole_pow sampleGlobals restCar (1 / 2) 8000 ∧
      MachineCpp.requested_torque whole_pow sampleGlobals restCar (1 / 2) 8000
        ≤ sampleGlobals.POWER_LEVELS sampleGlobals.power_level)) :=
  ⟨⟨by norm_num [sampleTune], by norm_num [sampleGlobals]⟩,
    requested_torque_bounded whole_pow restCar (1 / 2) 8000 sampleTune sampleGlobals
      (by norm_num [sampleTune]) (by norm_num [sampleGlobals])⟩

/-! ## The two inverter writes -/

@[simp]
theorem setDriveEnable_DriveEnable (Car : iCANflex) (v : Int) :
    (Car.setDriveEnable v).DTI.DriveEnable = v := rfl

@[simp]
theorem setDriveEnable_RCurrent (Car : iCANflex) (v : Int) :
    (Car.setDriveEnable v).DTI.RCurrent = Car.DTI.RCurrent := rfl

@[simp]
theorem setRCurrent_RCurrent (Car : iCANflex) (c : ℚ) :
    (Car.setRCurrent c).DTI.RCurrent = c := rfl

@[simp]
theorem setRCurrent_DriveEnable (Car : iCANflex) (c : ℚ) :
    (Car.setRCurrent c).DTI.DriveEnable = Car.DTI.DriveEnable := rfl

@[simp]
theorem setDriveEnable_ERPM (Car : iCANflex) (v : Int) :
    (Car.setDriveEnable v).DTI.ERPM = Car.DTI.ERPM := rfl

@[simp]
theorem setRCurrent_ERPM (Car : iCANflex) (c : ℚ) :
    (Car.setRCurrent c).DTI.ERPM = Car.DTI.ERPM := rfl

@[simp]
theorem setDriveEnable_PEDALS (Car : iCANflex) (v : Int) :
    (Car.setDriveEnable v).PEDALS = Car.PEDALS := rfl

@[simp]
theorem setRCurrent_PEDALS (Car : iCANflex) (c : ℚ) :
    (Car.setRCurrent c).PEDALS = Car.PEDALS := rfl

@[simp]
theorem setDriveEnable_ACU1 (Car : iCANflex) (v : Int) :
    (Car.setDriveEnable v).ACU1 = Car.ACU1 := rfl

@[simp]
theorem setRCurrent_ACU1 (Car : iCANflex) (c : ℚ) :
    (Car.setRCurrent c).ACU1 = Car.ACU1 := rfl

/-! ## Critical faults and the control cycle -/

/-- One cycle of `loop` with a non-empty active set, for every car, every prior
state and every classifier: the cycle completes with drive-enable 0 and
requested current 0, and the first member `f` of the set is pinned.  The state
after the cycle is `ERROR` when `f` evaluates true on the car (as `error` sees
it, after the two writes), in particular when every member of the set does;
when `f` evaluates false the cycle ends in `GLV_ON` with `f` erased from the
set. -/
theorem loop_active_fault {F : Type} [DecidableEq F] (pow : ℚ → ℚ → ℚ)
    (call : F → iCANflex → Bool) (system_checks : iCANflex → List F → List F)
    (SD_begin : List Bool) (gr24 : List ℚ) (junk : ℚ) (P : Main.Program F)
    (f : F) (rest : List F)
    (h : system_checks P.Car P.active_faults = f :: rest) :
    ∃ Q, Main.loop pow call system_checks SD_begin gr24 junk P = some Q ∧
      Q.Car = (P.Car.setDriveEnable 0).setRCurrent 0 ∧
      Q.Car.DTI.DriveEnable = 0 ∧ Q.Car.DTI.RCurrent = 0 ∧
      Q.errorCheck = some f ∧
      (call f Q.Car = true → Q.state = MachineCpp.State.ERROR ∧ Q.active_faults = f :: rest) ∧
      (call f Q.Car = false → Q.state = MachineCpp.State.GLV_ON ∧
        Q.active_faults = (f :: rest).filter (fun g => g ≠ f)) ∧
      ((∀ g ∈ f :: rest, call g Q.Car = true) → Q.state = MachineCpp.State.ERROR) := by
  cases hc : call f ((P.Car.setDriveEnable 0).setRCurrent 0) <;>
    simp [Main.loop, Main.sendToError, Main.dispatch, MachineCpp.error, h, hc]

/-- The predicates behind `FaultPtr` read no command value: the two writes of
a step do not change what they return. -/
theorem FaultPtr.call_after_writes (f : FaultPtr) (Car : iCANflex) (e : Int) (c : ℚ) :
    f.call ((Car.setDriveEnable e).setRCurrent c) = f.call Car := by
  cases f <;> rfl

/-- One cycle of `loop` when every member of the non-empty active set evaluates
true on the snapshot and the predicates read no command value: whichever member
`begin()` yields, the cycle ends in `ERROR` with the zero command. -/
theorem loop_error_of_true_members {F : Type} [DecidableEq F] (pow : ℚ → ℚ → ℚ)
    (call : F → iCANflex → Bool) (system_checks : iCANflex → List F → List F)
    (SD_begin : List Bool) (gr24 : List ℚ) (junk : ℚ) (P : Main.Program F)
    (hread : ∀ (g : F) (Car : iCANflex) (e : Int) (c : ℚ),
      call g ((Car.setDriveEnable e).setRCurrent c) = call g Car)
    (hinv : ∀ g ∈ system_checks P.Car P.active_faults, call g P.Car = true)
    (f : F) (hf : f ∈ system_checks P.Car P.active_faults) :
    ∃ Q, Main.loop pow call system_checks SD_begin gr24 junk P = some Q ∧
      Q.state = MachineCpp.State.ERROR ∧
      Q.Car.DTI.DriveEnable = 0 ∧ Q.Car.DTI.RCurrent = 0 := by
  cases hset : system_checks P.Car P.active_faults with
  | nil =>
    rw [hset] at hf
    exact absurd hf (List.not_mem_nil f)
  | cons g rest =>
    obtain ⟨Q, hQ, hcar, he, hc, _, _, _, hall⟩ :=
      loop_active_fault pow call system_checks SD_begin gr24 junk P g rest hset
    refine ⟨Q, hQ, hall ?_, he, hc⟩
    intro m hm
    rw [hcar, hread]
    exact hinv m (by rw [hset]; exact hm)

/-- C2: for every car and every prior state, if a Critical-class predicate `f`
is in the active fault set at the start of the cycle and evaluates true on the
snapshot, then after `loop` (`sendToError` on the member `begin()` yields, then
`error`) the state is `ERROR`, drive-enable is 0 and the requested current is
0.  The `SystemsCheck::` calls that fill the set are not in the tree: the first
part holds for every classifier that leaves only members evaluating true on the
snapshot, which is the spec's FaultSet; the second part is the same for the
set rebuilt from a list `checks` of predicates, where `f` evaluating true puts
it in the set.  The predicates read no command value. -/
theorem loop_critical_fault {F : Type} [DecidableEq F] (pow : ℚ → ℚ → ℚ)
    (call : F → iCANflex → Bool) (SD_begin : List Bool) (gr24 : List ℚ) (junk : ℚ)
    (P : Main.Program F) (f : F)
    (hread : ∀ (g : F) (Car : iCANflex) (e : Int) (c : ℚ),
      call g ((Car.setDriveEnable e).setRCurrent c) = call g Car) :
    (∀ system_checks : iCANflex → List F → List F,
      (∀ g ∈ system_checks P.Car P.active_faults, call g P.Car = true) →
      f ∈ system_checks P.Car P.active_faults → call f P.Car = true →
      ∃ Q, Main.loop pow call system_checks SD_begin gr24 junk P = some Q ∧
        Q.state = MachineCpp.State.ERROR ∧
        Q.Car.DTI.DriveEnable = 0 ∧ Q.Car.DTI.RCurrent = 0) ∧
    (∀ checks : List F, f ∈ checks → call f P.Car = true →
      ∃ Q, Main.loop pow call (rebuild_checks call checks) SD_begin gr24 junk P = some Q ∧
        Q.state = MachineCpp.State.ERROR ∧
        Q.Car.DTI.DriveEnable = 0 ∧ Q.Car.DTI.RCurrent = 0) := by
  constructor
  · intro system_checks hinv hf _
    exact loop_error_of_true_members pow call system_checks SD_begin gr24 junk P hread hinv f hf
  · intro checks hf ht
    apply loop_error_of_true_members pow call (rebuild_checks call checks) SD_begin gr24 junk P
      hread _ f
    · exact List.mem_filter.mpr ⟨hf, ht⟩
    · intro g hg
      exact (List.mem_filter.mp hg).2

/-- Witness for C2: `staleCar` in `DRIVE_TORQUE`, the last command drive-enable
1 at 50 A, the set rebuilt from `rtd_brake_fault` and `critical_can_failure`;
the inverter frame is 101 ms old, so `critical_can_failure` evaluates true and
the cycle ends in `ERROR` with the zero command. -/
theorem loop_critical_fault_witness :
    (FaultPtr.critical_can_failure ∈
        [FaultPtr.rtd_brake_fault, FaultPtr.critical_can_failure] ∧
      FaultPtr.call FaultPtr.critical_can_failure
        (sampleProgram MachineCpp.State.DRIVE_TORQUE staleCar false []).Car = true) ∧
    ∃ Q, Main.loop whole_pow FaultPtr.call
          (rebuild_checks FaultPtr.call
            [FaultPtr.rtd_brake_fault, FaultPtr.critical_can_failure]) [true] [] 0
          (sampleProgram MachineCpp.State.DRIVE_TORQUE staleCar false []) = some Q ∧
      Q.state = MachineCpp.State.ERROR ∧
      Q.Car.DTI.DriveEnable = 0 ∧ Q.Car.DTI.RCurrent = 0 :=
  ⟨⟨by decide, by decide!⟩,
    (loop_critical_fault whole_pow FaultPtr.call [true] [] 0
      (sampleProgram MachineCpp.State.DRIVE_TORQUE staleCar false [])
      FaultPtr.critical_can_failure FaultPtr.call_after_writes).2
      [FaultPtr.rtd_brake_fault, FaultPtr.critical_can_failure] (by decide) (by decide!)⟩

/-! ## Drive states -/

namespace MachineHpp

/-- Branch of `drive_active` taken when the APPS cross-check fails. -/
theorem drive_active_of_apps (pow : ℚ → ℚ → ℚ) (Car : iCANflex) (v : Bool) (mode : Mode)
    (tune : Tune) (comms : CANComms)
    (h : |Car.PEDALS.APPS1 - 2 * Car.PEDALS.APPS2| > 1 / 10) :
    drive_active pow Car v mode tune comms
      = (State.DRIVE_STANDBY, Car, v, comms.sendDashboardPopup 1) := by
  simp only [drive_active, if_pos h]

/-- Branch of `drive_active` taken when the cross-check passes and brake and
accelerator are pressed together. -/
theorem drive_active_of_bse (pow : ℚ → ℚ → ℚ) (Car : iCANflex) (v : Bool) (mode : Mode)
    (tune : Tune) (comms : CANComms)
    (h : ¬ |Car.PEDALS.APPS1 - 2 * Car.PEDALS.APPS2| > 1 / 10)
    (hb : (Car.PEDALS.BrakePressureF + Car.PEDALS.BrakePressureR) / 2 > 1 / 20 ∧
      Car.PEDALS.APPS1 > 1 / 4) :
    drive_active pow Car v mode tune comms = (State.DRIVE_STANDBY, Car, true, comms) := by
  simp only [drive_active, if_neg h, if_pos hb]

/-- Branch of `drive_active` taken when both checks pass. -/
theorem drive_active_of_ok (pow : ℚ → ℚ → ℚ) (Car : iCANflex) (v : Bool) (mode : Mode)
    (tune : Tune) (comms : CANComms)
    (h : ¬ |Car.PEDALS.APPS1 - 2 * Car.PEDALS.APPS2| > 1 / 10)
    (hb : ¬ ((Car.PEDALS.BrakePressureF + Car.PEDALS.BrakePressureR) / 2 > 1 / 20 ∧
      Car.PEDALS.APPS1 > 1 / 4)) :
    drive_active pow Car v mode tune comms
      = (State.DRIVE_ACTIVE,
          (Car.setDriveEnable 1).setRCurrent
            (requested_torque pow (Car.setDriveEnable 1) Car.PEDALS.APPS1
              (toInt (Car.DTI.ERPM / 10)) tune),
          v, comms) := by
  simp only [drive_active, if_neg h, if_neg hb, setDriveEnable_ERPM]

end MachineHpp

namespace MachineCpp

/-- Branch of `drive_torque` taken when the APPS cross-check fails. -/
theorem drive_torque_of_apps (pow : ℚ → ℚ → ℚ) (G : Globals) (Car : iCANflex) (v : Bool)
    (mode : Mode) (h : |Car.PEDALS.APPS1 - 2 * Car.PEDALS.APPS2| > 1 / 10) :
    drive_torque pow G Car v mode = (State.DRIVE_NULL, Car, v) := by
  simp only [drive_torque, if_pos h]

/-- Branch of `drive_torque` taken when the cross-check passes and brake and
accelerator are pressed together. -/
theorem drive_torque_of_bse (pow : ℚ → ℚ → ℚ) (G : Globals) (Car : iCANflex) (v : Bool)
    (mode : Mode) (h : ¬ |Car.PEDALS.APPS1 - 2 * Car.PEDALS.APPS2| > 1 / 10)
    (hb : (Car.PEDALS.BrakePressureF + Car.PEDALS.BrakePressureR) / 2 > 1 / 20 ∧
      Car.PEDALS.APPS1 > 1 / 4) :
    drive_torque pow G Car v mode = (State.DRIVE_NULL, Car, true) := by
  simp only [drive_torque, if_neg h, if_pos hb]

/-- Branch of `drive_torque` taken when both checks pass. -/
theorem drive_torque_of_ok (pow : ℚ → ℚ → ℚ) (G : Globals) (Car : iCANflex) (v : Bool)
    (mode : Mode) (h : ¬ |Car.PEDALS.APPS1 - 2 * Car.PEDALS.APPS2| > 1 / 10)
    (hb : ¬ ((Car.PEDALS.BrakePressureF + Car.PEDALS.BrakePressureR) / 2 > 1 / 20 ∧
      Car.PEDALS.APPS1 > 1 / 4)) :
    drive_torque pow G Car v mode
      = (State.DRIVE_TORQUE,
          (Car.setDriveEnable 1).setRCurrent
            (requested_torque pow G (Car.setDriveEnable 1) Car.PEDALS.Throttle
              (toInt (Car.DTI.ERPM / 10))),
          v) := by
  simp only [drive_torque, if_neg h, if_neg hb, setDriveEnable_ERPM]

end MachineCpp

/-- A popup changes the `CANComms` object. -/
theorem sendDashboardPopup_ne (comms : CANComms) (code : Nat) :
    comms.sendDashboardPopup code ≠ comms := by
  intro hc
  have := congrArg (fun c => c.popups.length) hc
  simp [CANComms.sendDashboardPopup] at this

/-- C3: the APPS cross-check of `drive_active` (`machine.hpp`) and of
`drive_torque` (`machine.cpp`) is strict.  The plausibility branch is taken
exactly when `|apps1 - 2*apps2| > 0.1`: then the step returns standby with the
latch and the car untouched, and `drive_active` sends dashboard popup 1;
otherwise no popup is sent and the step returns standby only through the
co-activation check.  With `apps1 = 0.5`, `apps2 = 0.2` and mean brake pressure
at most 0.05 the next state is the active state; with `apps1 = 0.52`,
`apps2 = 0.2` it is standby. -/
theorem drive_active_apps_check (pow : ℚ → ℚ → ℚ) (G : MachineCpp.Globals)
    (Car : iCANflex) (v : Bool) (mode : Mode) (tune : Tune) (comms : CANComms) :
    (|Car.PEDALS.APPS1 - 2 * Car.PEDALS.APPS2| > 1 / 10 →
      MachineHpp.drive_active pow Car v mode tune comms
          = (MachineHpp.State.DRIVE_STANDBY, Car, v, comms.sendDashboardPopup 1) ∧
        MachineCpp.drive_torque pow G Car v mode = (MachineCpp.State.DRIVE_NULL, Car, v)) ∧
    (¬ |Car.PEDALS.APPS1 - 2 * Car.PEDALS.APPS2| > 1 / 10 →
      (MachineHpp.drive_active pow Car v mode tune comms).2.2.2 = comms ∧
        ((MachineHpp.drive_active pow Car v mode tune comms).1 = MachineHpp.State.DRIVE_STANDBY ↔
          (Car.PEDALS.BrakePressureF + Car.PEDALS.BrakePressureR) / 2 > 1 / 20 ∧
            Car.PEDALS.APPS1 > 1 / 4) ∧
        ((MachineCpp.drive_torque pow G Car v mode).1 = MachineCpp.State.DRIVE_NULL ↔
          (Car.PEDALS.BrakePressureF + Car.PEDALS.BrakePressureR) / 2 > 1 / 20 ∧
            Car.PEDALS.APPS1 > 1 / 4)) ∧
    ((MachineHpp.drive_active pow Car v mode tune comms).2.2.2
        = comms.sendDashboardPopup 1 ↔
      |Car.PEDALS.APPS1 - 2 * Car.PEDALS.APPS2| > 1 / 10) ∧
    (Car.PEDALS.APPS1 = 1 / 2 → Car.PEDALS.APPS2 = 1 / 5 →
      (Car.PEDALS.BrakePressureF + Car.PEDALS.BrakePressureR) / 2 ≤ 1 / 20 →
      (MachineHpp.drive_active pow Car v mode tune comms).1 = MachineHpp.State.DRIVE_ACTIVE ∧
        (MachineCpp.drive_torque pow G Car v mode).1 = MachineCpp.State.DRIVE_TORQUE) ∧
    (Car.PEDALS.APPS1 = 13 / 25 → Car.PEDALS.APPS2 = 1 / 5 →
      (MachineHpp.drive_active pow Car v mode tune comms).1 = MachineHpp.State.DRIVE_STANDBY ∧
        (MachineCpp.drive_torque pow G Car v mode).1 = MachineCpp.State.DRIVE_NULL) := by
  refine ⟨?_, ?_, ?_, ?_, ?_⟩
  · intro h
    exact ⟨MachineHpp.drive_active_of_apps pow Car v mode tune comms h,
      MachineCpp.drive_torque_of_apps pow G Car v mode h⟩
  · intro h
    by_cases hb : (Car.PEDALS.BrakePressureF + Car.PEDALS.BrakePressureR) / 2 > 1 / 20 ∧
        Car.PEDALS.APPS1 > 1 / 4
    · rw [MachineHpp.drive_active_of_bse pow Car v mode tune comms h hb,
        MachineCpp.drive_torque_of_bse pow G Car v mode h hb]
      exact ⟨rfl, iff_of_true rfl hb, iff_of_true rfl hb⟩
    · rw [MachineHpp.drive_active_of_ok pow Car v mode tune comms h hb,
        MachineCpp.drive_torque_of_ok pow G Car v mode h hb]
      exact ⟨rfl, iff_of_false (by simp) hb, iff_of_false (by simp) hb⟩
  · by_cases h : |Car.PEDALS.APPS1 - 2 * Car.PEDALS.APPS2| > 1 / 10
    · rw [MachineHpp.drive_active_of_apps pow Car v mode tune comms h]
      exact iff_of_true rfl h
    · refine iff_of_false ?_ h
      by_cases hb : (Car.PEDALS.BrakePressureF + Car.PEDALS.BrakePressureR) / 2 > 1 / 20 ∧
          Car.PEDALS.APPS1 > 1 / 4
      · rw [MachineHpp.drive_active_of_bse pow Car v mode tune comms h hb]
        exact fun hc => sendDashboardPopup_ne comms 1 hc.symm
      · rw [MachineHpp.drive_active_of_ok pow Car v mode tune comms h hb]
        exact fun hc => sendDashboardPopup_ne comms 1 hc.symm
  · intro h1 h2 hb
    have h : ¬ |Car.PEDALS.APPS1 - 2 * Car.PEDALS.APPS2| > 1 / 10 := by
      rw [h1, h2]; norm_num [abs_of_pos]
    have hb2 : ¬ ((Car.PEDALS.BrakePressureF + Car.PEDALS.BrakePressureR) / 2 > 1 / 20 ∧
        Car.PEDALS.APPS1 > 1 / 4) := fun hc => absurd hc.1 (not_lt.mpr hb)
    rw [MachineHpp.drive_active_of_ok pow Car v mode tune comms h hb2,
      MachineCpp.drive_torque_of_ok pow G Car v mode h hb2]
    exact ⟨rfl, rfl⟩
  · intro h1 h2
    have h : |Car.PEDALS.APPS1 - 2 * Car.PEDALS.APPS2| > 1 / 10 := by
      rw [h1, h2]; norm_num [abs_of_pos]
    rw [MachineHpp.drive_active_of_apps pow Car v mode tune comms h,
      MachineCpp.drive_torque_of_apps pow G Car v mode h]
    exact ⟨rfl, rfl⟩

/-- Witness for C3: `apps1 = 0.52`, `apps2 = 0.2` takes the plausibility
branch; `apps1 = 0.5`, `apps2 = 0.2` with brake pressure 0.05 stays active. -/
theorem drive_active_apps_check_witness :
    (|(pedalCar (13 / 25) (1 / 5) 0 0).PEDALS.APPS1
        - 2 * (pedalCar (13 / 25) (1 / 5) 0 0).PEDALS.APPS2| > 1 / 10 ∧
      MachineHpp.drive_active whole_pow (pedalCar (13 / 25) (1 / 5) 0 0) false Mode.ENDURANCE
          sampleTune ⟨[]⟩
        = (MachineHpp.State.DRIVE_STANDBY, pedalCar (13 / 25) (1 / 5) 0 0, false,
            CANComms.sendDashboardPopup ⟨[]⟩ 1) ∧
      MachineCpp.drive_torque whole_pow sampleGlobals (pedalCar (13 / 25) (1 / 5) 0 0) false
          Mode.ENDURANCE
        = (MachineCpp.State.DRIVE_NULL, pedalCar (13 / 25) (1 / 5) 0 0, false)) ∧
    (((pedalCar (1 / 2) (1 / 5) (1 / 20) (1 / 20)).PEDALS.BrakePressureF
        + (pedalCar (1 / 2) (1 / 5) (1 / 20) (1 / 20)).PEDALS.BrakePressureR) / 2 ≤ 1 / 20 ∧
      (MachineHpp.drive_active whole_pow (pedalCar (1 / 2) (1 / 5) (1 / 20) (1 / 20)) false
          Mode.ENDURANCE sampleTune ⟨[]⟩).1 = MachineHpp.State.DRIVE_ACTIVE ∧
      (MachineCpp.drive_torque whole_pow sampleGlobals
          (pedalCar (1 / 2) (1 / 5) (1 / 20) (1 / 20)) false Mode.ENDURANCE).1
        = MachineCpp.State.DRIVE_TORQUE) :=
  ⟨⟨by norm_num [pedalCar, abs_of_pos],
      (drive_active_apps_check whole_pow sampleGlobals (pedalCar (13 / 25) (1 / 5) 0 0) false
        Mode.ENDURANCE sampleTune ⟨[]⟩).1 (by norm_num [pedalCar, abs_of_pos])⟩,
    ⟨by norm_num [pedalCar],
      (drive_active_apps_check whole_pow sampleGlobals
        (pedalCar (1 / 2) (1 / 5) (1 / 20) (1 / 20)) false Mode.ENDURANCE sampleTune
        ⟨[]⟩).2.2.2.1 rfl rfl (by norm_num [pedalCar])⟩⟩

/-- C4 as stated fails: with `apps1 = 0.26`, `apps2 = 0` and both brake
pressures 0.06 the APPS cross-check fails first (`|0.26 - 0| > 0.1`), the step
returns standby through that branch and the latch, false before, is still
false afterwards; so in `drive_active` and in `drive_torque`. -/
theorem drive_active_latch_counterexample :
    (((pedalCar (13 / 50) 0 (3 / 50) (3 / 50)).PEDALS.BrakePressureF
        + (pedalCar (13 / 50) 0 (3 / 50) (3 / 50)).PEDALS.BrakePressureR) / 2 > 1 / 20 ∧
      (pedalCar (13 / 50) 0 (3 / 50) (3 / 50)).PEDALS.APPS1 > 1 / 4) ∧
    (MachineHpp.drive_active whole_pow (pedalCar (13 / 50) 0 (3 / 50) (3 / 50)) false
        Mode.ENDURANCE sampleTune ⟨[]⟩).2.2.1 = false ∧
    (MachineCpp.drive_torque whole_pow sampleGlobals (pedalCar (13 / 50) 0 (3 / 50) (3 / 50))
        false Mode.ENDURANCE).2.2 = false := by
  decide!

/-- C4, amended: in `drive_active` and `drive_torque`, for every car with mean
brake pressure above 0.05 and `apps1` above 0.25 the step returns standby; when
the APPS cross-check passes (`|apps1 - 2*apps2| ≤ 0.1`) it leaves the latch
true, and when the cross-check fails the latch keeps the value it had. -/
theorem drive_active_bse_latch (pow : ℚ → ℚ → ℚ) (G : MachineCpp.Globals)
    (Car : iCANflex) (v : Bool) (mode : Mode) (tune : Tune) (comms : CANComms)
    (hbrake : (Car.PEDALS.BrakePressureF + Car.PEDALS.BrakePressureR) / 2 > 1 / 20)
    (happs : Car.PEDALS.APPS1 > 1 / 4) :
    ((MachineHpp.drive_active pow Car v mode tune comms).1 = MachineHpp.State.DRIVE_STANDBY ∧
      (MachineCpp.drive_torque pow G Car v mode).1 = MachineCpp.State.DRIVE_NULL) ∧
    (|Car.PEDALS.APPS1 - 2 * Car.PEDALS.APPS2| ≤ 1 / 10 →
      (MachineHpp.drive_active pow Car v mode tune comms).2.2.1 = true ∧
        (MachineCpp.drive_torque pow G Car v mode).2.2 = true) ∧
    (|Car.PEDALS.APPS1 - 2 * Car.PEDALS.APPS2| > 1 / 10 →
      (MachineHpp.drive_active pow Car v mode tune comms).2.2.1 = v ∧
        (MachineCpp.drive_torque pow G Car v mode).2.2 = v) := by
  by_cases h : |Car.PEDALS.APPS1 - 2 * Car.PEDALS.APPS2| > 1 / 10
  · rw [MachineHpp.drive_active_of_apps pow Car v mode tune comms h,
      MachineCpp.drive_torque_of_apps pow G Car v mode h]
    exact ⟨⟨rfl, rfl⟩, fun hle => absurd h (not_lt.mpr hle), fun _ => ⟨rfl, rfl⟩⟩
  · rw [MachineHpp.drive_active_of_bse pow Car v mode tune comms h ⟨hbrake, happs⟩,
      MachineCpp.drive_torque_of_bse pow G Car v mode h ⟨hbrake, happs⟩]
    exact ⟨⟨rfl, rfl⟩, fun _ => ⟨rfl, rfl⟩, fun hgt => absurd hgt h⟩

/-- Witness for C4, amended: mean brake pressure 0.06, `apps1 = 0.26`,
`apps2 = 0.13`, latch false before the step. -/
theorem drive_active_bse_latch_witness :
    ((pedalCar (13 / 50) (13 / 100) (3 / 50) (3 / 50)).PEDALS.BrakePressureF
        + (pedalCar (13 / 50) (13 / 100) (3 / 50) (3 / 50)).PEDALS.BrakePressureR) / 2
      > 1 / 20 ∧
    (pedalCar (13 / 50) (13 / 100) (3 / 50) (3 / 50)).PEDALS.APPS1 > 1 / 4 ∧
    |(pedalCar (13 / 50) (13 / 100) (3 / 50) (3 / 50)).PEDALS.APPS1
        - 2 * (pedalCar (13 / 50) (13 / 100) (3 / 50) (3 / 50)).PEDALS.APPS2| ≤ 1 / 10 ∧
    ((MachineHpp.drive_active whole_pow (pedalCar (13 / 50) (13 / 100) (3 / 50) (3 / 50)) false
        Mode.ENDURANCE sampleTune ⟨[]⟩).1 = MachineHpp.State.DRIVE_STANDBY ∧
      (MachineCpp.drive_torque whole_pow sampleGlobals
        (pedalCar (13 / 50) (13 / 100) (3 / 50) (3 / 50)) false Mode.ENDURANCE).1
        = MachineCpp.State.DRIVE_NULL) ∧
    ((MachineHpp.drive_active whole_pow (pedalCar (13 / 50) (13 / 100) (3 / 50) (3 / 50)) false
        Mode.ENDURANCE sampleTune ⟨[]⟩).2.2.1 = true ∧
      (MachineCpp.drive_torque whole_pow sampleGlobals
        (pedalCar (13 / 50) (13 / 100) (3 / 50) (3 / 50)) false Mode.ENDURANCE).2.2 = true) :=
  have hw := drive_active_bse_latch whole_pow sampleGlobals
    (pedalCar (13 / 50) (13 / 100) (3 / 50) (3 / 50)) false Mode.ENDURANCE sampleTune ⟨[]⟩
    (by norm_num [pedalCar]) (by norm_num [pedalCar])
  ⟨by norm_num [pedalCar], by norm_num [pedalCar], by norm_num [pedalCar, abs_of_nonneg],
    hw.1, hw.2.1 (by norm_num [pedalCar, abs_of_nonneg])⟩

namespace MachineHpp

/-- The `drive_standby` of `machine.hpp` returns `DRIVE_STANDBY` and changes
neither the car nor the latch, whatever the pedals read. -/
theorem drive_standby_eq (Car : iCANflex) (v : Bool) (mode : Mode) :
    drive_standby Car v mode = (State.DRIVE_STANDBY, Car, v) := rfl

end MachineHpp

namespace MachineCpp

/-- The `drive_null` of `machine.cpp` with the latch set: the state stays
`DRIVE_NULL`, and the latch is cleared exactly when the mean of the two
accelerator sensors is below 0.05. -/
theorem drive_null_latched (Car : iCANflex) (mode : Mode) :
    (drive_null Car true mode).1 = State.DRIVE_NULL ∧
    ((Car.PEDALS.APPS1 + Car.PEDALS.APPS2) / 2 < 1 / 20 →
      (drive_null Car true mode).2.2 = false) ∧
    (¬ (Car.PEDALS.APPS1 + Car.PEDALS.APPS2) / 2 < 1 / 20 →
      (drive_null Car true mode).2.2 = true) := by
  by_cases h : (Car.PEDALS.APPS1 + Car.PEDALS.APPS2) / 2 < 1 / 20
  · simp only [drive_null, setDriveEnable_PEDALS, setRCurrent_PEDALS, Bool.not_true,
      Bool.false_eq_true, false_and, if_false, if_true, if_pos h, h, not_true_eq_false,
      imp_self, false_implies, and_self]
  · simp only [drive_null, setDriveEnable_PEDALS, setRCurrent_PEDALS, Bool.not_true,
      Bool.false_eq_true, false_and, if_false, if_true, if_neg h, h, not_false_eq_true,
      imp_self, false_implies, and_self]

/-- The `drive_null` of `machine.cpp` with the latch clear: throttle above 0.05
gives `DRIVE_TORQUE`, otherwise brake above 0.05 gives `DRIVE_REGEN`, otherwise
`DRIVE_NULL`; the latch stays clear. -/
theorem drive_null_unlatched (Car : iCANflex) (mode : Mode) :
    ((Car.PEDALS.APPS1 + Car.PEDALS.APPS2) / 2 > 1 / 20 →
      (drive_null Car false mode).1 = State.DRIVE_TORQUE) ∧
    (¬ (Car.PEDALS.APPS1 + Car.PEDALS.APPS2) / 2 > 1 / 20 →
      (Car.PEDALS.BrakePressureF + Car.PEDALS.BrakePressureR) / 2 > 1 / 20 →
      (drive_null Car false mode).1 = State.DRIVE_REGEN) ∧
    (¬ (Car.PEDALS.APPS1 + Car.PEDALS.APPS2) / 2 > 1 / 20 →
      ¬ (Car.PEDALS.BrakePressureF + Car.PEDALS.BrakePressureR) / 2 > 1 / 20 →
      (drive_null Car false mode).1 = State.DRIVE_NULL) ∧
    (drive_null Car false mode).2.2 = false := by
  by_cases h : (Car.PEDALS.APPS1 + Car.PEDALS.APPS2) / 2 > 1 / 20 <;>
    by_cases hb : (Car.PEDALS.BrakePressureF + Car.PEDALS.BrakePressureR) / 2 > 1 / 20 <;>
    simp only [drive_null, setDriveEnable_PEDALS, setRCurrent_PEDALS, Bool.not_false,
      Bool.false_eq_true, true_and, if_false, if_true, h, hb, not_true_eq_false,
      not_false_eq_true, imp_self, false_implies, true_implies, and_self, implies_true]

end MachineCpp

/-- C5 against `machine.hpp`: from `DRIVE_STANDBY` with the latch set and both
accelerator sensors at 0.04 (throttle 0.04, below 0.05) `drive_standby` returns
`DRIVE_STANDBY` with the latch still set, where the claim has it cleared.  The
`drive_null` of `machine.cpp` clears it on the same input. -/
theorem drive_standby_keeps_latch :
    (pedalCar (1 / 25) (1 / 25) 0 0).PEDALS.APPS1 < 1 / 20 ∧
    ((pedalCar (1 / 25) (1 / 25) 0 0).PEDALS.APPS1
      + (pedalCar (1 / 25) (1 / 25) 0 0).PEDALS.APPS2) / 2 < 1 / 20 ∧
    MachineHpp.drive_standby (pedalCar (1 / 25) (1 / 25) 0 0) true Mode.ENDURANCE
      = (MachineHpp.State.DRIVE_STANDBY, pedalCar (1 / 25) (1 / 25) 0 0, true) ∧
    (MachineCpp.drive_null (pedalCar (1 / 25) (1 / 25) 0 0) true Mode.ENDURANCE).2.2
      = false := by
  decide!

/-- C6 against `machine.hpp`: from `DRIVE_STANDBY` with the latch clear,
`drive_standby` stays in `DRIVE_STANDBY` with both accelerator sensors at 0.5
(the claim: `DRIVE_ACTIVE`) and with the accelerator released and both brake
pressures at 0.5 (the claim: `DRIVE_REGEN`).  The `drive_null` of `machine.cpp`
returns `DRIVE_TORQUE` and `DRIVE_REGEN` on these inputs. -/
theorem drive_standby_never_leaves :
    (MachineHpp.drive_standby (pedalCar (1 / 2) (1 / 2) 0 0) false Mode.ENDURANCE).1
      = MachineHpp.State.DRIVE_STANDBY ∧
    (MachineHpp.drive_standby (pedalCar 0 0 (1 / 2) (1 / 2)) false Mode.ENDURANCE).1
      = MachineHpp.State.DRIVE_STANDBY ∧
    (MachineCpp.drive_null (pedalCar (1 / 2) (1 / 2) 0 0) false Mode.ENDURANCE).1
      = MachineCpp.State.DRIVE_TORQUE ∧
    (MachineCpp.drive_null (pedalCar 0 0 (1 / 2) (1 / 2)) false Mode.ENDURANCE).1
      = MachineCpp.State.DRIVE_REGEN := by
  decide!

/-- C7: from the regen state, throttle above 0.05 gives the active state
whatever the brake pressures are; the car and the latch are left as they were.
The throttle is `getAPPS1()` in `machine.hpp` and `getThrottle()` in
`machine.cpp`. -/
theorem drive_regen_throttle_exit (G : MachineCpp.Globals) (Car : iCANflex) (v : Bool)
    (mode : Mode) (tune : Tune) :
    (Car.PEDALS.APPS1 > 1 / 20 →
      MachineHpp.drive_regen Car v mode tune = (MachineHpp.State.DRIVE_ACTIVE, Car, v)) ∧
    (Car.PEDALS.Throttle > 1 / 20 →
      MachineCpp.drive_regen G Car v mode = (MachineCpp.State.DRIVE_TORQUE, Car, v)) := by
  constructor
  · intro h
    simp only [MachineHpp.drive_regen, if_pos h]
  · intro h
    simp only [MachineCpp.drive_regen, if_pos h]

/-- Witness for C7: throttle 0.1 with both brake pressures at 0.5. -/
theorem drive_regen_throttle_exit_witness :
    ((pedalCar (1 / 10) (1 / 20) (1 / 2) (1 / 2)).PEDALS.APPS1 > 1 / 20 ∧
      MachineHpp.drive_regen (pedalCar (1 / 10) (1 / 20) (1 / 2) (1 / 2)) false Mode.ENDURANCE
          sampleTune
        = (MachineHpp.State.DRIVE_ACTIVE, pedalCar (1 / 10) (1 / 20) (1 / 2) (1 / 2), false)) ∧
    ((pedalCar (1 / 10) (1 / 20) (1 / 2) (1 / 2)).PEDALS.Throttle > 1 / 20 ∧
      MachineCpp.drive_regen sampleGlobals (pedalCar (1 / 10) (1 / 20) (1 / 2) (1 / 2)) false
          Mode.ENDURANCE
        = (MachineCpp.State.DRIVE_TORQUE, pedalCar (1 / 10) (1 / 20) (1 / 2) (1 / 2), false)) :=
  have hw := drive_regen_throttle_exit sampleGlobals (pedalCar (1 / 10) (1 / 20) (1 / 2) (1 / 2))
    false Mode.ENDURANCE sampleTune
  ⟨⟨by norm_num [pedalCar], hw.1 (by norm_num [pedalCar])⟩,
    ⟨by norm_num [pedalCar], hw.2 (by norm_num [pedalCar])⟩⟩

/-! ## Startup -/

namespace MachineCpp

/-- The wait on the SD card ends exactly when one `SD.begin` call succeeds. -/
theorem SD_wait_iff (SD_begin : List Bool) : SD_wait SD_begin = true ↔ true ∈ SD_begin := by
  induction SD_begin with
  | nil => simp [SD_wait]
  | cons b rest ih => cases b <;> simp [SD_wait, ih]

/-- With a file that holds the twenty numbers of a tune, `ecu_flash` stores
them in order: four torque profiles, four power levels, four regen levels. -/
theorem ecu_flash_complete (junk : ℚ) (Car : iCANflex) (G : Globals)
    (k0 p0 b0 k1 p1 b1 k2 p2 b2 k3 p3 b3 c0 c1 c2 c3 r0 r1 r2 r3 : ℚ) (more : List ℚ) :
    ∃ Car2 G2,
      ecu_flash [true]
          (k0 :: p0 :: b0 :: k1 :: p1 :: b1 :: k2 :: p2 :: b2 :: k3 :: p3 :: b3 ::
            c0 :: c1 :: c2 :: c3 :: r0 :: r1 :: r2 :: r3 :: more) junk Car G
        = some (State.GLV_ON, Car2, G2) ∧
      G2.TORQUE_PROFILES 0 = ⟨k0, p0, b0⟩ ∧ G2.TORQUE_PROFILES 1 = ⟨k1, p1, b1⟩ ∧
      G2.TORQUE_PROFILES 2 = ⟨k2, p2, b2⟩ ∧ G2.TORQUE_PROFILES 3 = ⟨k3, p3, b3⟩ ∧
      G2.POWER_LEVELS 0 = c0 ∧ G2.POWER_LEVELS 1 = c1 ∧ G2.POWER_LEVELS 2 = c2 ∧
      G2.POWER_LEVELS 3 = c3 ∧
      G2.REGEN_LEVELS 0 = r0 ∧ G2.REGEN_LEVELS 1 = r1 ∧ G2.REGEN_LEVELS 2 = r2 ∧
      G2.REGEN_LEVELS 3 = r3 := by
  exact ⟨_, _, rfl, rfl, rfl, rfl, rfl, rfl, rfl, rfl, rfl, rfl, rfl, rfl, rfl⟩

end MachineCpp

/-- C8 as stated fails on `machine.cpp`: with the SD card initialised at the
first attempt and a file that holds no number at all (no torque profile is
supplied), `ecu_flash` returns `GLV_ON`, not `ECU_FLASH`. -/
theorem ecu_flash_incomplete_counterexample :
    (MachineCpp.ecu_flash [true] [] 0 restCar sampleGlobals).map (fun r => r.1)
      = some MachineCpp.State.GLV_ON ∧
    (MachineCpp.ecu_flash [true] [1 / 2, 2, 1 / 10] 0 restCar sampleGlobals).map
        (fun r => r.1)
      = some MachineCpp.State.GLV_ON := by
  decide!

/-- C8, amended: `ecu_flash` makes no completeness check.  In `machine.cpp`,
as soon as one `SD.begin` call succeeds it returns, and what it returns is
`GLV_ON` with drive-enable 0 and requested current 0, for every content of the
file (also one that supplies fewer than four torque profiles); while no
`SD.begin` call has succeeded it has not returned.  In `machine.hpp`
`ecu_flash` loads nothing, leaves the car as it is and returns `ECU_FLASH` on
every cycle. -/
theorem ecu_flash_ungated (SD_begin : List Bool) (gr24 : List ℚ) (junk : ℚ)
    (Car : iCANflex) (G : MachineCpp.Globals) :
    (true ∈ SD_begin →
      ∃ G2, MachineCpp.ecu_flash SD_begin gr24 junk Car G
        = some (MachineCpp.State.GLV_ON, (Car.setDriveEnable 0).setRCurrent 0, G2)) ∧
    (true ∉ SD_begin → MachineCpp.ecu_flash SD_begin gr24 junk Car G = none) ∧
    MachineHpp.ecu_flash Car = (MachineHpp.State.ECU_FLASH, Car) := by
  refine ⟨?_, ?_, rfl⟩
  · intro h
    have hw := (MachineCpp.SD_wait_iff SD_begin).mpr h
    simp only [MachineCpp.ecu_flash, hw, if_true]
    exact ⟨_, rfl⟩
  · intro h
    have hw : ¬ MachineCpp.SD_wait SD_begin = true :=
      fun hc => h ((MachineCpp.SD_wait_iff SD_begin).mp hc)
    simp only [MachineCpp.ecu_flash, hw, if_false]
    rfl

/-- Witness for C8, amended: the card initialises at the second attempt and the
file holds one torque profile only. -/
theorem ecu_flash_ungated_witness :
    true ∈ [false, true] ∧
    ∃ G2, MachineCpp.ecu_flash [false, true] [1 / 2, 2, 1 / 10] 0 restCar sampleGlobals
      = some (MachineCpp.State.GLV_ON, (restCar.setDriveEnable 0).setRCurrent 0, G2) :=
  ⟨by decide,
    (ecu_flash_ungated [false, true] [1 / 2, 2, 1 / 10] 0 restCar sampleGlobals).1
      (by decide)⟩

/-! ## Fault classifier -/

/-- C9: CAN liveness is a strict comparison against 100 ms.
`critical_can_failure` is true exactly when one of the six drive-critical nodes
(DTI, ECU, PEDALS, ACU1, BCM1, ENERGY_METER) has an age above 100; it is false
when all six ages are exactly 100 and true when one of them is 101; it takes
the same value on two cars that agree on these six ages; and
`warn_can_failure` is true exactly when one of WFL, WFR, WRL, WRR, DASHBOARD,
GPS1 has an age above 100. -/
theorem can_failure_strict (Car : iCANflex) :
    (SystemsCheck.critical_can_failure Car = true ↔
      Car.DTI.Age > 100 ∨ Car.ECU.Age > 100 ∨ Car.PEDALS.Age > 100 ∨
        Car.ACU1.Age > 100 ∨ Car.BCM1.Age > 100 ∨ Car.ENERGY_METER.Age > 100) ∧
    (Car.DTI.Age = 100 → Car.ECU.Age = 100 → Car.PEDALS.Age = 100 →
      Car.ACU1.Age = 100 → Car.BCM1.Age = 100 → Car.ENERGY_METER.Age = 100 →
      SystemsCheck.critical_can_failure Car = false) ∧
    (Car.DTI.Age = 101 ∨ Car.ECU.Age = 101 ∨ Car.PEDALS.Age = 101 ∨
        Car.ACU1.Age = 101 ∨ Car.BCM1.Age = 101 ∨ Car.ENERGY_METER.Age = 101 →
      SystemsCheck.critical_can_failure Car = true) ∧
    (∀ Car2 : iCANflex, Car2.DTI.Age = Car.DTI.Age → Car2.ECU.Age = Car.ECU.Age →
      Car2.PEDALS.Age = Car.PEDALS.Age → Car2.ACU1.Age = Car.ACU1.Age →
      Car2.BCM1.Age = Car.BCM1.Age → Car2.ENERGY_METER.Age = Car.ENERGY_METER.Age →
      SystemsCheck.critical_can_failure Car2 = SystemsCheck.critical_can_failure Car) ∧
    (SystemsCheck.warn_can_failure Car = true ↔
      Car.WFL.Age > 100 ∨ Car.WFR.Age > 100 ∨ Car.WRL.Age > 100 ∨
        Car.WRR.Age > 100 ∨ Car.DASHBOARD.Age > 100 ∨ Car.GPS1.Age > 100) := by
  have hcrit : SystemsCheck.critical_can_failure Car = true ↔
      Car.DTI.Age > 100 ∨ Car.ECU.Age > 100 ∨ Car.PEDALS.Age > 100 ∨
        Car.ACU1.Age > 100 ∨ Car.BCM1.Age > 100 ∨ Car.ENERGY_METER.Age > 100 := by
    simp [SystemsCheck.critical_can_failure, SystemsCheck.CAN_MS_THRESHOLD, or_assoc]
  refine ⟨hcrit, ?_, ?_, ?_, ?_⟩
  · intro h1 h2 h3 h4 h5 h6
    rw [Bool.eq_false_iff]
    intro hc
    have := hcrit.mp hc
    omega
  · intro h
    apply hcrit.mpr
    omega
  · intro Car2 h1 h2 h3 h4 h5 h6
    simp only [SystemsCheck.critical_can_failure, h1, h2, h3, h4, h5, h6]
  · simp [SystemsCheck.warn_can_failure, SystemsCheck.CAN_MS_THRESHOLD, or_assoc]

/-- Witness for C9: every critical node at exactly 100 ms (the others at
500 ms) is no critical failure; the inverter at 101 ms is one. -/
theorem can_failure_strict_witness :
    SystemsCheck.critical_can_failure (agedCar 100 500) = false ∧
    SystemsCheck.critical_can_failure staleCar = true :=
  ⟨(can_failure_strict (agedCar 100 500)).2.1 rfl rfl rfl rfl rfl rfl,
    (can_failure_strict staleCar).2.2.1 (Or.inl rfl)⟩

/-- C10 as stated fails at both ends of the band: with every read of the pin
returning 730, and with every read returning 760, `AMS_fault`, `IMD_fault` and
`BSPD_fault` return true (fault). -/
theorem analog_band_ends_counterexample :
    (SystemsCheck.AMS_fault 730 730 730 = true ∧ SystemsCheck.AMS_fault 760 760 760 = true) ∧
    (SystemsCheck.IMD_fault 730 730 730 = true ∧ SystemsCheck.IMD_fault 760 760 760 = true) ∧
    (SystemsCheck.BSPD_fault 730 730 730 = true ∧
      SystemsCheck.BSPD_fault 760 760 760 = true) := by
  decide

/-- C10, amended: for every reading `r` (the same at each read of the pin
within one call), `AMS_fault`, `IMD_fault` and `BSPD_fault` each return false
(no fault) exactly when `730 < r < 760`, both band ends excluded, and true
(fault) for every other reading: `r ≤ 730`, which covers every `r < 310`, and
`r ≥ 760`. -/
theorem analog_band_strict (r : Int) :
    ((SystemsCheck.AMS_fault r r r = false ↔ 730 < r ∧ r < 760) ∧
      (SystemsCheck.AMS_fault r r r = true ↔ r ≤ 730 ∨ 760 ≤ r)) ∧
    ((SystemsCheck.IMD_fault r r r = false ↔ 730 < r ∧ r < 760) ∧
      (SystemsCheck.IMD_fault r r r = true ↔ r ≤ 730 ∨ 760 ≤ r)) ∧
    ((SystemsCheck.BSPD_fault r r r = false ↔ 730 < r ∧ r < 760) ∧
      (SystemsCheck.BSPD_fault r r r = true ↔ r ≤ 730 ∨ 760 ≤ r)) := by
  simp only [SystemsCheck.AMS_fault, SystemsCheck.IMD_fault, SystemsCheck.BSPD_fault]
  by_cases h1 : r < 310
  · simp only [if_pos h1]
    simp
    omega
  · by_cases h2 : r > 730 ∧ r < 760
    · simp only [if_neg h1, if_pos h2]
      simp
      omega
    · simp only [if_neg h1, if_neg h2]
      simp
      omega

/-! ## Forward torque in the active state -/

/-- A whole number passes through the conversion to `int` unchanged. -/
theorem toInt_intCast (n : Int) : toInt (n : ℚ) = n := by
  unfold toInt
  split_ifs
  · exact Int.floor_intCast n
  · exact Int.ceil_intCast n

/-- The two clipping `if`s of `requested_torque` compute `clip(z, 0, 1)`. -/
theorem clip_ifs (z : ℚ) :
    (if (if z > 1 then 1 else z) < 0 then 0 else (if z > 1 then 1 else z)) = clip z 0 1 := by
  unfold clip
  by_cases h1 : z > 1
  · have h2 : ¬ (1 : ℚ) < 0 := by norm_num
    rw [if_pos h1, if_neg h2, min_eq_right (le_of_lt h1)]
    exact (max_eq_right (by norm_num)).symm
  · rw [if_neg h1, min_eq_left (not_lt.mp h1)]
    by_cases h0 : z < 0
    · rw [if_pos h0]
      exact (max_eq_left (le_of_lt h0)).symm
    · rw [if_neg h0]
      exact (max_eq_right (not_lt.mp h0)).symm

namespace MachineHpp

/-- The value of `requested_torque` is the spec's formula at the load
`rpm / revLimit`, with `rpm` the whole number the function receives. -/
theorem requested_torque_eq_spec (pow : ℚ → ℚ → ℚ) (Car : iCANflex) (throttle : ℚ)
    (rpm : Int) (tune : Tune) :
    requested_torque pow Car throttle rpm tune
      = spec_requested_current pow throttle ((rpm : ℚ) / tune.revLimit)
          tune.ActiveTorqueProfile.K tune.ActiveTorqueProfile.P tune.ActiveTorqueProfile.B
          tune.ActiveCurrentLimit := by
  simp only [requested_torque, spec_requested_current, clip_ifs]

end MachineHpp

namespace MachineCpp

/-- The value of `requested_torque` is the spec's formula at the load
`rpm / REV_LIMIT`, with `rpm` the whole number the function receives. -/
theorem requested_torque_eq_spec_cpp (pow : ℚ → ℚ → ℚ) (G : Globals) (Car : iCANflex)
    (throttle : ℚ) (rpm : Int) :
    requested_torque pow G Car throttle rpm
      = spec_requested_current pow throttle ((rpm : ℚ) / G.REV_LIMIT)
          (G.TORQUE_PROFILES G.throttle_map).K (G.TORQUE_PROFILES G.throttle_map).P
          (G.TORQUE_PROFILES G.throttle_map).B (G.POWER_LEVELS G.power_level) := by
  simp only [requested_torque, spec_requested_current, clip_ifs]

end MachineCpp

/-- C11 as stated fails.  At throttle 0.5 (both checks pass) and an erpm reading
of 27505 with a rev limit of 5500, `drive_active` and `drive_torque` request
46.25 A, the formula at the load `2750 / 5500`: the reading is divided by 10 and
the fractional part of 2750.5 is lost in the `int rpm` parameter.  The formula
at `y = erpm / rev_limit` gives 0 A, and at `y = (erpm / 10) / rev_limit`, with
the fractional part kept, a value other than 46.25 A. -/
theorem drive_active_load_counterexample :
    ((MachineHpp.drive_active whole_pow (drivingCar (1 / 2) (1 / 4) 0 0 27505 0 0) false
        Mode.ENDURANCE sampleTune ⟨[]⟩).2.1.DTI.RCurrent = 185 / 4 ∧
      (MachineCpp.drive_torque whole_pow sampleGlobals (drivingCar (1 / 2) (1 / 4) 0 0 27505 0 0)
        false Mode.ENDURANCE).2.1.DTI.RCurrent = 185 / 4) ∧
    spec_requested_current whole_pow (1 / 2) (27505 / 5500) (1 / 2) 2 (1 / 10) 100 = 0 ∧
    spec_requested_current whole_pow (1 / 2) (27505 / 10 / 5500) (1 / 2) 2 (1 / 10) 100
      ≠ 185 / 4 := by
  decide!

/-- C11, amended: on an active cycle on which both checks pass, the step
returns the active state, leaves the latch as it was, sets drive-enable 1 and
requests `clip(x - (1 - x)*(x + b)*(y^p)*k, 0, 1) * active_current_limit`, where
`x` is the throttle (`apps1` in `machine.hpp`, `getThrottle()` in
`machine.cpp`), `(k, p, b)` the active profile and `y = (erpm / 10) / rev_limit`;
stated for readings whose tenth `erpm / 10` is a whole number `n`. -/
theorem drive_active_torque_formula (pow : ℚ → ℚ → ℚ) (G : MachineCpp.Globals)
    (Car : iCANflex) (v : Bool) (mode : Mode) (tune : Tune) (comms : CANComms) (n : Int)
    (happs : ¬ |Car.PEDALS.APPS1 - 2 * Car.PEDALS.APPS2| > 1 / 10)
    (hbse : ¬ ((Car.PEDALS.BrakePressureF + Car.PEDALS.BrakePressureR) / 2 > 1 / 20 ∧
      Car.PEDALS.APPS1 > 1 / 4))
    (hrpm : Car.DTI.ERPM / 10 = (n : ℚ)) :
    ((MachineHpp.drive_active pow Car v mode tune comms).1 = MachineHpp.State.DRIVE_ACTIVE ∧
      (MachineHpp.drive_active pow Car v mode tune comms).2.2.1 = v ∧
      (MachineHpp.drive_active pow Car v mode tune comms).2.1.DTI.DriveEnable = 1 ∧
      (MachineHpp.drive_active pow Car v mode tune comms).2.1.DTI.RCurrent
        = spec_requested_current pow Car.PEDALS.APPS1 ((n : ℚ) / tune.revLimit)
            tune.ActiveTorqueProfile.K tune.ActiveTorqueProfile.P tune.ActiveTorqueProfile.B
            tune.ActiveCurrentLimit) ∧
    ((MachineCpp.drive_torque pow G Car v mode).1 = MachineCpp.State.DRIVE_TORQUE ∧
      (MachineCpp.drive_torque pow G Car v mode).2.2 = v ∧
      (MachineCpp.drive_torque pow G Car v mode).2.1.DTI.DriveEnable = 1 ∧
      (MachineCpp.drive_torque pow G Car v mode).2.1.DTI.RCurrent
        = spec_requested_current pow Car.PEDALS.Throttle ((n : ℚ) / G.REV_LIMIT)
            (G.TORQUE_PROFILES G.throttle_map).K (G.TORQUE_PROFILES G.throttle_map).P
            (G.TORQUE_PROFILES G.throttle_map).B (G.POWER_LEVELS G.power_level)) := by
  rw [MachineHpp.drive_active_of_ok pow Car v mode tune comms happs hbse,
    MachineCpp.drive_torque_of_ok pow G Car v mode happs hbse, hrpm, toInt_intCast,
    MachineHpp.requested_torque_eq_spec, MachineCpp.requested_torque_eq_spec_cpp]
  exact ⟨⟨rfl, rfl, rfl, rfl⟩, rfl, rfl, rfl, rfl⟩

/-- Witness for C11, amended: throttle 0.5 at an erpm reading of 27500, that is
2750 rpm, half the rev limit of 5500; the request is 46.25 A. -/
theorem drive_active_torque_formula_witness :
    (MachineHpp.drive_active whole_pow (drivingCar (1 / 2) (1 / 4) 0 0 27500 0 0) false
        Mode.ENDURANCE sampleTune ⟨[]⟩).2.1.DTI.RCurrent
      = spec_requested_current whole_pow (1 / 2) (((2750 : Int) : ℚ) / 5500) (1 / 2) 2 (1 / 10)
          100 ∧
    (MachineCpp.drive_torque whole_pow sampleGlobals (drivingCar (1 / 2) (1 / 4) 0 0 27500 0 0)
        false Mode.ENDURANCE).2.1.DTI.RCurrent
      = spec_requested_current whole_pow (1 / 2) (((2750 : Int) : ℚ) / 5500) (1 / 2) 2 (1 / 10)
          100 :=
  have hw := drive_active_torque_formula whole_pow sampleGlobals
    (drivingCar (1 / 2) (1 / 4) 0 0 27500 0 0) false Mode.ENDURANCE sampleTune ⟨[]⟩ 2750
    (by norm_num [drivingCar, pedalCar]) (by norm_num [drivingCar, pedalCar])
    (by norm_num [drivingCar])
  ⟨hw.1.2.2.2, hw.2.2.2.2⟩

/-! ## Error recovery -/

/-- C12: `error` (both revisions) sets drive-enable 0 and requested current 0
and changes nothing else of the car.  It returns `ERROR`, with the active set
unchanged, if the pinned predicate evaluates true; if the pinned predicate
evaluates false it returns `GLV_ON`, and a predicate is in the active set
afterwards exactly when it was in the set before and is not the pinned one, the
members kept staying in their order. -/
theorem error_recovery {F : Type} [DecidableEq F] (call : F → iCANflex → Bool)
    (callT : F → iCANflex → Tune → Bool) (Car : iCANflex) (t : Tune) (errorCheck : F)
    (active_faults : List F) :
    ((MachineCpp.error call Car errorCheck active_faults).2.1
        = (Car.setDriveEnable 0).setRCurrent 0 ∧
      (MachineCpp.error call Car errorCheck active_faults).2.1.DTI.DriveEnable = 0 ∧
      (MachineCpp.error call Car errorCheck active_faults).2.1.DTI.RCurrent = 0 ∧
      (call errorCheck ((Car.setDriveEnable 0).setRCurrent 0) = true →
        (MachineCpp.error call Car errorCheck active_faults).1 = MachineCpp.State.ERROR ∧
        (MachineCpp.error call Car errorCheck active_faults).2.2 = active_faults) ∧
      (call errorCheck ((Car.setDriveEnable 0).setRCurrent 0) = false →
        (MachineCpp.error call Car errorCheck active_faults).1 = MachineCpp.State.GLV_ON ∧
        (MachineCpp.error call Car errorCheck active_faults).2.2
          = active_faults.filter (fun g => g ≠ errorCheck) ∧
        ∀ g, g ∈ (MachineCpp.error call Car errorCheck active_faults).2.2 ↔
          g ∈ active_faults ∧ g ≠ errorCheck)) ∧
    ((MachineHpp.error callT Car t errorCheck active_faults).2.1
        = (Car.setDriveEnable 0).setRCurrent 0 ∧
      (MachineHpp.error callT Car t errorCheck active_faults).2.1.DTI.DriveEnable = 0 ∧
      (MachineHpp.error callT Car t errorCheck active_faults).2.1.DTI.RCurrent = 0 ∧
      (callT errorCheck ((Car.setDriveEnable 0).setRCurrent 0) t = true →
        (MachineHpp.error callT Car t errorCheck active_faults).1 = MachineHpp.State.ERROR ∧
        (MachineHpp.error callT Car t errorCheck active_faults).2.2 = active_faults) ∧
      (callT errorCheck ((Car.setDriveEnable 0).setRCurrent 0) t = false →
        (MachineHpp.error callT Car t errorCheck active_faults).1 = MachineHpp.State.GLV_ON ∧
        (MachineHpp.error callT Car t errorCheck active_faults).2.2
          = active_faults.filter (fun g => g ≠ errorCheck) ∧
        ∀ g, g ∈ (MachineHpp.error callT Car t errorCheck active_faults).2.2 ↔
          g ∈ active_faults ∧ g ≠ errorCheck)) := by
  constructor
  · cases hc : call errorCheck ((Car.setDriveEnable 0).setRCurrent 0) <;>
      simp [MachineCpp.error, hc]
  · cases hc : callT errorCheck ((Car.setDriveEnable 0).setRCurrent 0) t <;>
      simp [MachineHpp.error, hc]

/-- Witness for C12: `staleCar` with the set `{rtd_brake_fault,
critical_can_failure}`.  Pinned on `rtd_brake_fault`, which is false with the
brakes held, `error` returns `GLV_ON` and keeps `critical_can_failure` alone;
pinned on `critical_can_failure`, which is true, it returns `ERROR`. -/
theorem error_recovery_witness :
    (FaultPtr.call FaultPtr.rtd_brake_fault ((staleCar.setDriveEnable 0).setRCurrent 0) = false ∧
      (MachineCpp.error FaultPtr.call staleCar FaultPtr.rtd_brake_fault
          [FaultPtr.rtd_brake_fault, FaultPtr.critical_can_failure]).1
        = MachineCpp.State.GLV_ON ∧
      (MachineCpp.error FaultPtr.call staleCar FaultPtr.rtd_brake_fault
          [FaultPtr.rtd_brake_fault, FaultPtr.critical_can_failure]).2.2
        = [FaultPtr.critical_can_failure]) ∧
    (FaultPtr.call FaultPtr.critical_can_failure ((staleCar.setDriveEnable 0).setRCurrent 0)
        = true ∧
      (MachineHpp.error (fun f c _ => FaultPtr.call f c) staleCar sampleTune
          FaultPtr.critical_can_failure
          [FaultPtr.rtd_brake_fault, FaultPtr.critical_can_failure]).1
        = MachineHpp.State.ERROR) :=
  ⟨⟨by decide!,
      ((error_recovery FaultPtr.call (fun f c _ => FaultPtr.call f c) staleCar sampleTune
        FaultPtr.rtd_brake_fault
        [FaultPtr.rtd_brake_fault, FaultPtr.critical_can_failure]).1.2.2.2.2 (by decide!)).1,
      ((error_recovery FaultPtr.call (fun f c _ => FaultPtr.call f c) staleCar sampleTune
        FaultPtr.rtd_brake_fault
        [FaultPtr.rtd_brake_fault, FaultPtr.critical_can_failure]).1.2.2.2.2
          (by decide!)).2.1⟩,
    ⟨by decide!,
      ((error_recovery FaultPtr.call (fun f c _ => FaultPtr.call f c) staleCar sampleTune
        FaultPtr.critical_can_failure
        [FaultPtr.rtd_brake_fault, FaultPtr.critical_can_failure]).2.2.2.2.1 (by decide!)).1⟩⟩

/-! ## The actuator command after a step -/

namespace MachineHpp

/-- Branch of `drive_regen` taken when the throttle is pressed. -/
theorem drive_regen_of_throttle (Car : iCANflex) (v : Bool) (mode : Mode) (tune : Tune)
    (h : Car.PEDALS.APPS1 > 1 / 20) :
    drive_regen Car v mode tune = (State.DRIVE_ACTIVE, Car, v) := by
  simp only [drive_regen, if_pos h]

/-- Branch of `drive_regen` taken when throttle and brake are both released. -/
theorem drive_regen_of_brake (Car : iCANflex) (v : Bool) (mode : Mode) (tune : Tune)
    (h : ¬ Car.PEDALS.APPS1 > 1 / 20)
    (hb : (Car.PEDALS.BrakePressureF + Car.PEDALS.BrakePressureR) / 2 < 1 / 20) :
    drive_regen Car v mode tune = (State.DRIVE_STANDBY, Car, v) := by
  simp only [drive_regen, if_neg h, if_pos hb]

/-- Branch of `drive_regen` taken when the throttle is released and the brake
is pressed. -/
theorem drive_regen_of_stay (Car : iCANflex) (v : Bool) (mode : Mode) (tune : Tune)
    (h : ¬ Car.PEDALS.APPS1 > 1 / 20)
    (hb : ¬ (Car.PEDALS.BrakePressureF + Car.PEDALS.BrakePressureR) / 2 < 1 / 20) :
    drive_regen Car v mode tune
      = (State.DRIVE_REGEN,
          (Car.setDriveEnable 1).setRCurrent
            (-1 * requested_regenerative_torque (Car.setDriveEnable 1)
                ((Car.PEDALS.BrakePressureF + Car.PEDALS.BrakePressureR) / 2)
                (toInt (Car.DTI.ERPM / 10))
              * tune.ActiveRegenPower),
          v) := by
  simp only [drive_regen, if_neg h, if_neg hb]

end MachineHpp

namespace MachineCpp

/-- Branch of `drive_regen` taken when the throttle is pressed. -/
theorem drive_regen_of_throttle_cpp (G : Globals) (Car : iCANflex) (v : Bool) (mode : Mode)
    (h : Car.PEDALS.Throttle > 1 / 20) :
    drive_regen G Car v mode = (State.DRIVE_TORQUE, Car, v) := by
  simp only [drive_regen, if_pos h]

/-- Branch of `drive_regen` taken when throttle and brake are both released. -/
theorem drive_regen_of_brake_cpp (G : Globals) (Car : iCANflex) (v : Bool) (mode : Mode)
    (h : ¬ Car.PEDALS.Throttle > 1 / 20)
    (hb : (Car.PEDALS.BrakePressureF + Car.PEDALS.BrakePressureR) / 2 < 1 / 20) :
    drive_regen G Car v mode = (State.DRIVE_NULL, Car, v) := by
  simp only [drive_regen, if_neg h, if_pos hb]

/-- Branch of `drive_regen` taken when the throttle is released and the brake
is pressed. -/
theorem drive_regen_of_stay_cpp (G : Globals) (Car : iCANflex) (v : Bool) (mode : Mode)
    (h : ¬ Car.PEDALS.Throttle > 1 / 20)
    (hb : ¬ (Car.PEDALS.BrakePressureF + Car.PEDALS.BrakePressureR) / 2 < 1 / 20) :
    drive_regen G Car v mode
      = (State.DRIVE_REGEN,
          (Car.setDriveEnable 1).setRCurrent
            (-1 * requested_regenerative_torque (Car.setDriveEnable 1)
                ((Car.PEDALS.BrakePressureF + Car.PEDALS.BrakePressureR) / 2)
                (toInt (Car.DTI.ERPM / 10))
              * G.REGEN_LEVELS G.regen_level),
          v) := by
  simp only [drive_regen, if_neg h, if_neg hb]

/-- What `ecu_flash` returns, when it returns, carries the zero command. -/
theorem ecu_flash_command (SD_begin : List Bool) (gr24 : List ℚ) (junk : ℚ) (Car : iCANflex)
    (G : Globals) (r : State × iCANflex × Globals)
    (h : ecu_flash SD_begin gr24 junk Car G = some r) :
    r.1 = State.GLV_ON ∧ r.2.1 = (Car.setDriveEnable 0).setRCurrent 0 := by
  unfold ecu_flash at h
  by_cases hw : SD_wait SD_begin = true
  · simp only [hw, if_true, Option.some.injEq] at h
    rw [← h]
    exact ⟨rfl, rfl⟩
  · simp only [hw, if_false] at h
    exact absurd h (by simp)

end MachineCpp

/-- Every step of `machine.cpp` other than `drive_torque` and `drive_regen`
ends, when it returns, with the zero command. -/
theorem Main.dispatch_command {F : Type} [DecidableEq F] (pow : ℚ → ℚ → ℚ)
    (call : F → iCANflex → Bool) (SD_begin : List Bool) (gr24 : List ℚ) (junk : ℚ)
    (P Q : Main.Program F) (h : Main.dispatch pow call SD_begin gr24 junk P = some Q)
    (ht : P.state ≠ MachineCpp.State.DRIVE_TORQUE)
    (hr : P.state ≠ MachineCpp.State.DRIVE_REGEN) :
    Q.Car = (P.Car.setDriveEnable 0).setRCurrent 0 := by
  unfold Main.dispatch at h
  cases hs : P.state
  case DRIVE_TORQUE => exact absurd hs ht
  case DRIVE_REGEN => exact absurd hs hr
  case ERROR =>
    simp only [hs] at h
    cases he : P.errorCheck with
    | none => simp [he] at h
    | some f =>
      simp only [he, Option.some.injEq] at h
      rw [← h]
      simp [MachineCpp.error]
      split_ifs <;> rfl
  case ECU_FLASH =>
    simp only [hs] at h
    cases hf : MachineCpp.ecu_flash SD_begin gr24 junk P.Car P.G with
    | none => simp [hf] at h
    | some r =>
      simp only [hf, Option.some.injEq] at h
      rw [← h]
      exact (MachineCpp.ecu_flash_command _ _ _ _ _ r hf).2
  all_goals
    simp only [hs, Option.some.injEq] at h
    rw [← h]
    first
      | rfl
      | (simp only [MachineCpp.drive_null]; split_ifs <;> rfl)

/-- C13 as stated fails.  With the command of the previous cycle at
drive-enable 1 and 50 A: an active step that detects the plausibility fault
(`apps1 = 0.52`, `apps2 = 0.2`), an active step that detects co-activation
(`apps1 = 0.26`, `apps2 = 0.13`, brake 0.06) and a regen step that exits on
throttle 0.1 all return with drive-enable 1 and 50 A still in place, in
`machine.hpp` and in `machine.cpp`. -/
theorem step_command_counterexample :
    ((MachineHpp.drive_active whole_pow (drivingCar (13 / 25) (1 / 5) 0 0 0 1 50) false
          Mode.ENDURANCE sampleTune ⟨[]⟩).2.1.DTI.DriveEnable = 1 ∧
      (MachineHpp.drive_active whole_pow (drivingCar (13 / 25) (1 / 5) 0 0 0 1 50) false
          Mode.ENDURANCE sampleTune ⟨[]⟩).2.1.DTI.RCurrent = 50 ∧
      (MachineCpp.drive_torque whole_pow sampleGlobals (drivingCar (13 / 25) (1 / 5) 0 0 0 1 50)
          false Mode.ENDURANCE).2.1.DTI.DriveEnable = 1 ∧
      (MachineCpp.drive_torque whole_pow sampleGlobals (drivingCar (13 / 25) (1 / 5) 0 0 0 1 50)
          false Mode.ENDURANCE).2.1.DTI.RCurrent = 50) ∧
    ((MachineHpp.drive_active whole_pow
          (drivingCar (13 / 50) (13 / 100) (3 / 50) (3 / 50) 0 1 50) false
          Mode.ENDURANCE sampleTune ⟨[]⟩).2.1.DTI.RCurrent = 50 ∧
      (MachineCpp.drive_torque whole_pow sampleGlobals
          (drivingCar (13 / 50) (13 / 100) (3 / 50) (3 / 50) 0 1 50) false
          Mode.ENDURANCE).2.1.DTI.RCurrent = 50) ∧
    ((MachineHpp.drive_regen (drivingCar (1 / 10) (1 / 20) 0 0 0 1 50) false Mode.ENDURANCE
          sampleTune).2.1.DTI.RCurrent = 50 ∧
      (MachineCpp.drive_regen sampleGlobals (drivingCar (1 / 10) (1 / 20) 0 0 0 1 50) false
          Mode.ENDURANCE).2.1.DTI.RCurrent = 50) := by
  decide!

/-- C13, amended.  After one step the command is drive-enable 0 and requested
current 0 for every step of `machine.cpp` other than `drive_torque` and
`drive_regen`, and for `ts_precharge`, `precharging`, `precharge_complete` and
`error` of `machine.hpp`.  The active step with no violation and the regen step
with throttle at most 0.05 and brake at least 0.05 set drive-enable 1.  An
active step that detects a plausibility or co-activation violation and a regen
step that exits make no write: the car, and with it the command of the previous
cycle, is returned as it was received. -/
theorem step_command {F : Type} [DecidableEq F] (pow : ℚ → ℚ → ℚ)
    (call : F → iCANflex → Bool) (callT : F → iCANflex → Tune → Bool)
    (SD_begin : List Bool) (gr24 : List ℚ) (junk : ℚ) (P : Main.Program F)
    (G : MachineCpp.Globals) (Car : iCANflex) (v : Bool) (mode : Mode) (tune : Tune)
    (comms : CANComms) (errorCheck : F) (active_faults : List F) :
    (P.state ≠ MachineCpp.State.DRIVE_TORQUE → P.state ≠ MachineCpp.State.DRIVE_REGEN →
      ∀ Q, Main.dispatch pow call SD_begin gr24 junk P = some Q →
        Q.Car.DTI.DriveEnable = 0 ∧ Q.Car.DTI.RCurrent = 0) ∧
    (((MachineHpp.ts_precharge Car).2.DTI.DriveEnable = 0 ∧
        (MachineHpp.ts_precharge Car).2.DTI.RCurrent = 0) ∧
      ((MachineHpp.precharging Car).2.DTI.DriveEnable = 0 ∧
        (MachineHpp.precharging Car).2.DTI.RCurrent = 0) ∧
      ((MachineHpp.precharge_complete Car).2.DTI.DriveEnable = 0 ∧
        (MachineHpp.precharge_complete Car).2.DTI.RCurrent = 0) ∧
      ((MachineHpp.error callT Car tune errorCheck active_faults).2.1.DTI.DriveEnable = 0 ∧
        (MachineHpp.error callT Car tune errorCheck active_faults).2.1.DTI.RCurrent = 0)) ∧
    (¬ |Car.PEDALS.APPS1 - 2 * Car.PEDALS.APPS2| > 1 / 10 →
      ¬ ((Car.PEDALS.BrakePressureF + Car.PEDALS.BrakePressureR) / 2 > 1 / 20 ∧
        Car.PEDALS.APPS1 > 1 / 4) →
      (MachineHpp.drive_active pow Car v mode tune comms).2.1.DTI.DriveEnable = 1 ∧
        (MachineCpp.drive_torque pow G Car v mode).2.1.DTI.DriveEnable = 1) ∧
    ((Car.PEDALS.APPS1 ≤ 1 / 20 →
        (Car.PEDALS.BrakePressureF + Car.PEDALS.BrakePressureR) / 2 ≥ 1 / 20 →
        (MachineHpp.drive_regen Car v mode tune).2.1.DTI.DriveEnable = 1) ∧
      (Car.PEDALS.Throttle ≤ 1 / 20 →
        (Car.PEDALS.BrakePressureF + Car.PEDALS.BrakePressureR) / 2 ≥ 1 / 20 →
        (MachineCpp.drive_regen G Car v mode).2.1.DTI.DriveEnable = 1)) ∧
    (|Car.PEDALS.APPS1 - 2 * Car.PEDALS.APPS2| > 1 / 10 ∨
        ((Car.PEDALS.BrakePressureF + Car.PEDALS.BrakePressureR) / 2 > 1 / 20 ∧
          Car.PEDALS.APPS1 > 1 / 4) →
      (MachineHpp.drive_active pow Car v mode tune comms).2.1 = Car ∧
        (MachineCpp.drive_torque pow G Car v mode).2.1 = Car) ∧
    ((Car.PEDALS.APPS1 > 1 / 20 ∨
          (Car.PEDALS.BrakePressureF + Car.PEDALS.BrakePressureR) / 2 < 1 / 20 →
        (MachineHpp.drive_regen Car v mode tune).2.1 = Car) ∧
      (Car.PEDALS.Throttle > 1 / 20 ∨
          (Car.PEDALS.BrakePressureF + Car.PEDALS.BrakePressureR) / 2 < 1 / 20 →
        (MachineCpp.drive_regen G Car v mode).2.1 = Car)) := by
  refine ⟨?_, ?_, ?_, ⟨?_, ?_⟩, ?_, ?_, ?_⟩
  · intro ht hr Q hQ
    rw [Main.dispatch_command pow call SD_begin gr24 junk P Q hQ ht hr]
    exact ⟨rfl, rfl⟩
  · refine ⟨?_, ?_, ⟨rfl, rfl⟩, ?_⟩
    · simp only [MachineHpp.ts_precharge]
      split_ifs <;> exact ⟨rfl, rfl⟩
    · simp only [MachineHpp.precharging]
      split_ifs <;> exact ⟨rfl, rfl⟩
    · simp only [MachineHpp.error]
      split_ifs <;> exact ⟨rfl, rfl⟩
  · intro h hb
    rw [MachineHpp.drive_active_of_ok pow Car v mode tune comms h hb,
      MachineCpp.drive_torque_of_ok pow G Car v mode h hb]
    exact ⟨rfl, rfl⟩
  · intro h hb
    rw [MachineHpp.drive_regen_of_stay Car v mode tune (not_lt.mpr h) (not_lt.mpr hb)]
    rfl
  · intro h hb
    rw [MachineCpp.drive_regen_of_stay_cpp G Car v mode (not_lt.mpr h) (not_lt.mpr hb)]
    rfl
  · intro h
    by_cases ha : |Car.PEDALS.APPS1 - 2 * Car.PEDALS.APPS2| > 1 / 10
    · rw [MachineHpp.drive_active_of_apps pow Car v mode tune comms ha,
        MachineCpp.drive_torque_of_apps pow G Car v mode ha]
      exact ⟨rfl, rfl⟩
    · have hb := h.resolve_left ha
      rw [MachineHpp.drive_active_of_bse pow Car v mode tune comms ha hb,
        MachineCpp.drive_torque_of_bse pow G Car v mode ha hb]
      exact ⟨rfl, rfl⟩
  · intro h
    by_cases ht : Car.PEDALS.APPS1 > 1 / 20
    · rw [MachineHpp.drive_regen_of_throttle Car v mode tune ht]
    · rw [MachineHpp.drive_regen_of_brake Car v mode tune ht (h.resolve_left ht)]
  · intro h
    by_cases ht : Car.PEDALS.Throttle > 1 / 20
    · rw [MachineCpp.drive_regen_of_throttle_cpp G Car v mode ht]
    · rw [MachineCpp.drive_regen_of_brake_cpp G Car v mode ht (h.resolve_left ht)]

/-- Witness for C13, amended: the active step at `apps1 = 0.52`, `apps2 = 0.2`
with the previous command at drive-enable 1 and 50 A returns the car as it was
received. -/
theorem step_command_witness :
    |(drivingCar (13 / 25) (1 / 5) 0 0 0 1 50).PEDALS.APPS1
        - 2 * (drivingCar (13 / 25) (1 / 5) 0 0 0 1 50).PEDALS.APPS2| > 1 / 10 ∧
    (MachineHpp.drive_active whole_pow (drivingCar (13 / 25) (1 / 5) 0 0 0 1 50) false
        Mode.ENDURANCE sampleTune ⟨[]⟩).2.1 = drivingCar (13 / 25) (1 / 5) 0 0 0 1 50 ∧
    (MachineCpp.drive_torque whole_pow sampleGlobals (drivingCar (13 / 25) (1 / 5) 0 0 0 1 50)
        false Mode.ENDURANCE).2.1 = drivingCar (13 / 25) (1 / 5) 0 0 0 1 50 :=
  ⟨by norm_num [drivingCar, pedalCar, abs_of_pos],
    (step_command whole_pow FaultPtr.call (fun f c _ => FaultPtr.call f c) [true] [] 0
      (sampleProgram MachineCpp.State.DRIVE_NULL (drivingCar (13 / 25) (1 / 5) 0 0 0 1 50)
        false [])
      sampleGlobals (drivingCar (13 / 25) (1 / 5) 0 0 0 1 50) false Mode.ENDURANCE sampleTune
      ⟨[]⟩ FaultPtr.SDC_opened []).2.2.2.2.1
      (Or.inl (by norm_num [drivingCar, pedalCar, abs_of_pos]))⟩

/-! ## Precharge, regeneration and the violating cycle -/

/-- C14 against the code: with the acknowledgment absent (`getPrechargeDone`
false, as in `restCar`) `precharging` returns `PRECHARGE_COMPLETE`, in
`machine.hpp`, where an `if` on the acknowledgment is followed by the same
`return`, and in `machine.cpp`, where no test is made; the state does not remain
`PRECHARGING`. -/
theorem precharging_ignores_ack :
    restCar.ACU1.PrechargeDone = false ∧
    (MachineHpp.precharging restCar).1 = MachineHpp.State.PRECHARGE_COMPLETE ∧
    (MachineHpp.precharging restCar).1 ≠ MachineHpp.State.PRECHARGING ∧
    (MachineCpp.precharging restCar).1 = MachineCpp.State.PRECHARGE_COMPLETE ∧
    (MachineCpp.precharging restCar).1 ≠ MachineCpp.State.PRECHARGING := by
  decide

/-- The step `precharging` returns `PRECHARGE_COMPLETE` for every car, in both
revisions. -/
theorem precharging_always_complete (Car : iCANflex) :
    (MachineHpp.precharging Car).1 = MachineHpp.State.PRECHARGE_COMPLETE ∧
    (MachineCpp.precharging Car).1 = MachineCpp.State.PRECHARGE_COMPLETE := by
  constructor
  · simp only [MachineHpp.precharging]
    split_ifs <;> rfl
  · rfl

/-- C15: `requested_regenerative_torque` (both revisions) returns 0 at
standstill (`rpm = 0`) and inside the brake deadband (`brake < 0.05`); it reads
no charge-current ceiling and returns 0 for every car, brake value and rpm. -/
theorem regen_torque_zero (Car : iCANflex) (brake : ℚ) (rpm : Int) :
    (rpm = 0 ∨ brake < 1 / 20 →
      MachineHpp.requested_regenerative_torque Car brake rpm = 0 ∧
        MachineCpp.requested_regenerative_torque Car brake rpm = 0) ∧
    (MachineHpp.requested_regenerative_torque Car brake rpm = 0 ∧
      MachineCpp.requested_regenerative_torque Car brake rpm = 0) :=
  ⟨fun _ => ⟨rfl, rfl⟩, rfl, rfl⟩

/-- Witness for C15: brake 0.5 at standstill. -/
theorem regen_torque_zero_witness :
    ((0 : Int) = 0 ∨ (1 / 2 : ℚ) < 1 / 20) ∧
    MachineHpp.requested_regenerative_torque restCar (1 / 2) 0 = 0 ∧
    MachineCpp.requested_regenerative_torque restCar (1 / 2) 0 = 0 :=
  ⟨Or.inl rfl, (regen_torque_zero restCar (1 / 2) 0).1 (Or.inl rfl)⟩

/-- C17: in the active state both checks come before any write.  For every car
that fails the APPS cross-check or the co-activation check, `drive_active` and
`drive_torque` return standby and hand the car back as they received it:
neither drive-enable nor the requested current is written. -/
theorem drive_active_violation_no_write (pow : ℚ → ℚ → ℚ) (G : MachineCpp.Globals)
    (Car : iCANflex) (v : Bool) (mode : Mode) (tune : Tune) (comms : CANComms)
    (h : |Car.PEDALS.APPS1 - 2 * Car.PEDALS.APPS2| > 1 / 10 ∨
      ((Car.PEDALS.BrakePressureF + Car.PEDALS.BrakePressureR) / 2 > 1 / 20 ∧
        Car.PEDALS.APPS1 > 1 / 4)) :
    ((MachineHpp.drive_active pow Car v mode tune comms).1 = MachineHpp.State.DRIVE_STANDBY ∧
      (MachineHpp.drive_active pow Car v mode tune comms).2.1 = Car ∧
      (MachineHpp.drive_active pow Car v mode tune comms).2.1.DTI.DriveEnable
        = Car.DTI.DriveEnable ∧
      (MachineHpp.drive_active pow Car v mode tune comms).2.1.DTI.RCurrent
        = Car.DTI.RCurrent) ∧
    ((MachineCpp.drive_torque pow G Car v mode).1 = MachineCpp.State.DRIVE_NULL ∧
      (MachineCpp.drive_torque pow G Car v mode).2.1 = Car ∧
      (MachineCpp.drive_torque pow G Car v mode).2.1.DTI.DriveEnable = Car.DTI.DriveEnable ∧
      (MachineCpp.drive_torque pow G Car v mode).2.1.DTI.RCurrent = Car.DTI.RCurrent) := by
  by_cases ha : |Car.PEDALS.APPS1 - 2 * Car.PEDALS.APPS2| > 1 / 10
  · rw [MachineHpp.drive_active_of_apps pow Car v mode tune comms ha,
      MachineCpp.drive_torque_of_apps pow G Car v mode ha]
    exact ⟨⟨rfl, rfl, rfl, rfl⟩, rfl, rfl, rfl, rfl⟩
  · have hb := h.resolve_left ha
    rw [MachineHpp.drive_active_of_bse pow Car v mode tune comms ha hb,
      MachineCpp.drive_torque_of_bse pow G Car v mode ha hb]
    exact ⟨⟨rfl, rfl, rfl, rfl⟩, rfl, rfl, rfl, rfl⟩

/-- Witness for C17: brake 0.06 with `apps1 = 0.26`, `apps2 = 0.13`, the
previous command at drive-enable 0 and 0 A, which the step leaves in place. -/
theorem drive_active_violation_no_write_witness :
    (|(drivingCar (13 / 50) (13 / 100) (3 / 50) (3 / 50) 30000 0 0).PEDALS.APPS1
        - 2 * (drivingCar (13 / 50) (13 / 100) (3 / 50) (3 / 50) 30000 0 0).PEDALS.APPS2|
          > 1 / 10 ∨
      (((drivingCar (13 / 50) (13 / 100) (3 / 50) (3 / 50) 30000 0 0).PEDALS.BrakePressureF
          + (drivingCar (13 / 50) (13 / 100) (3 / 50) (3 / 50) 30000 0
              0).PEDALS.BrakePressureR) / 2 > 1 / 20 ∧
        (drivingCar (13 / 50) (13 / 100) (3 / 50) (3 / 50) 30000 0 0).PEDALS.APPS1 > 1 / 4)) ∧
    (MachineHpp.drive_active whole_pow
        (drivingCar (13 / 50) (13 / 100) (3 / 50) (3 / 50) 30000 0 0) true Mode.ENDURANCE
        sampleTune ⟨[]⟩).2.1.DTI.DriveEnable = 0 ∧
    (MachineCpp.drive_torque whole_pow sampleGlobals
        (drivingCar (13 / 50) (13 / 100) (3 / 50) (3 / 50) 30000 0 0) true
        Mode.ENDURANCE).2.1.DTI.RCurrent = 0 :=
  have hc : |(drivingCar (13 / 50) (13 / 100) (3 / 50) (3 / 50) 30000 0 0).PEDALS.APPS1
        - 2 * (drivingCar (13 / 50) (13 / 100) (3 / 50) (3 / 50) 30000 0 0).PEDALS.APPS2|
          > 1 / 10 ∨
      (((drivingCar (13 / 50) (13 / 100) (3 / 50) (3 / 50) 30000 0 0).PEDALS.BrakePressureF
          + (drivingCar (13 / 50) (13 / 100) (3 / 50) (3 / 50) 30000 0
              0).PEDALS.BrakePressureR) / 2 > 1 / 20 ∧
        (drivingCar (13 / 50) (13 / 100) (3 / 50) (3 / 50) 30000 0 0).PEDALS.APPS1 > 1 / 4) :=
    Or.inr ⟨by norm_num [drivingCar, pedalCar], by norm_num [drivingCar, pedalCar]⟩
  have hw := drive_active_violation_no_write whole_pow sampleGlobals
    (drivingCar (13 / 50) (13 / 100) (3 / 50) (3 / 50) 30000 0 0) true Mode.ENDURANCE
    sampleTune ⟨[]⟩ hc
  ⟨hc, hw.1.2.2.1, hw.2.2.2.2⟩

/-- C18: from the regen state with throttle at most 0.05 (`getAPPS1()` in
`machine.hpp`, `getThrottle()` in `machine.cpp`), the next state is standby if
the mean brake pressure is below 0.05; otherwise the state stays `DRIVE_REGEN`,
drive-enable is set to 1 and the requested current is minus the regen result
times the active regen level, which is not positive. -/
theorem drive_regen_rows (G : MachineCpp.Globals) (Car : iCANflex) (v : Bool) (mode : Mode)
    (tune : Tune) :
    (Car.PEDALS.APPS1 ≤ 1 / 20 →
      ((Car.PEDALS.BrakePressureF + Car.PEDALS.BrakePressureR) / 2 < 1 / 20 →
        (MachineHpp.drive_regen Car v mode tune).1 = MachineHpp.State.DRIVE_STANDBY) ∧
      (¬ (Car.PEDALS.BrakePressureF + Car.PEDALS.BrakePressureR) / 2 < 1 / 20 →
        (MachineHpp.drive_regen Car v mode tune).1 = MachineHpp.State.DRIVE_REGEN ∧
        (MachineHpp.drive_regen Car v mode tune).2.1.DTI.DriveEnable = 1 ∧
        (MachineHpp.drive_regen Car v mode tune).2.1.DTI.RCurrent
          = -(MachineHpp.requested_regenerative_torque Car
                ((Car.PEDALS.BrakePressureF + Car.PEDALS.BrakePressureR) / 2)
                (toInt (Car.DTI.ERPM / 10)) * tune.ActiveRegenPower) ∧
        (MachineHpp.drive_regen Car v mode tune).2.1.DTI.RCurrent ≤ 0)) ∧
    (Car.PEDALS.Throttle ≤ 1 / 20 →
      ((Car.PEDALS.BrakePressureF + Car.PEDALS.BrakePressureR) / 2 < 1 / 20 →
        (MachineCpp.drive_regen G Car v mode).1 = MachineCpp.State.DRIVE_NULL) ∧
      (¬ (Car.PEDALS.BrakePressureF + Car.PEDALS.BrakePressureR) / 2 < 1 / 20 →
        (MachineCpp.drive_regen G Car v mode).1 = MachineCpp.State.DRIVE_REGEN ∧
        (MachineCpp.drive_regen G Car v mode).2.1.DTI.DriveEnable = 1 ∧
        (MachineCpp.drive_regen G Car v mode).2.1.DTI.RCurrent
          = -(MachineCpp.requested_regenerative_torque Car
                ((Car.PEDALS.BrakePressureF + Car.PEDALS.BrakePressureR) / 2)
                (toInt (Car.DTI.ERPM / 10)) * G.REGEN_LEVELS G.regen_level) ∧
        (MachineCpp.drive_regen G Car v mode).2.1.DTI.RCurrent ≤ 0)) := by
  constructor
  · intro ht
    refine ⟨fun hb => ?_, fun hb => ?_⟩
    · rw [MachineHpp.drive_regen_of_brake Car v mode tune (not_lt.mpr ht) hb]
    · rw [MachineHpp.drive_regen_of_stay Car v mode tune (not_lt.mpr ht) hb]
      refine ⟨rfl, rfl, ?_, ?_⟩ <;>
        simp [MachineHpp.requested_regenerative_torque]
  · intro ht
    refine ⟨fun hb => ?_, fun hb => ?_⟩
    · rw [MachineCpp.drive_regen_of_brake_cpp G Car v mode (not_lt.mpr ht) hb]
    · rw [MachineCpp.drive_regen_of_stay_cpp G Car v mode (not_lt.mpr ht) hb]
      refine ⟨rfl, rfl, ?_, ?_⟩ <;>
        simp [MachineCpp.requested_regenerative_torque]

/-- Witness for C18: throttle released, both brake pressures at 0.5, the car
running at 30000 erpm. -/
theorem drive_regen_rows_witness :
    (drivingCar 0 0 (1 / 2) (1 / 2) 30000 0 0).PEDALS.APPS1 ≤ 1 / 20 ∧
    ¬ ((drivingCar 0 0 (1 / 2) (1 / 2) 30000 0 0).PEDALS.BrakePressureF
        + (drivingCar 0 0 (1 / 2) (1 / 2) 30000 0 0).PEDALS.BrakePressureR) / 2 < 1 / 20 ∧
    (MachineHpp.drive_regen (drivingCar 0 0 (1 / 2) (1 / 2) 30000 0 0) false Mode.ENDURANCE
        sampleTune).1 = MachineHpp.State.DRIVE_REGEN ∧
    (MachineHpp.drive_regen (drivingCar 0 0 (1 / 2) (1 / 2) 30000 0 0) false Mode.ENDURANCE
        sampleTune).2.1.DTI.DriveEnable = 1 :=
  have ht : (drivingCar 0 0 (1 / 2) (1 / 2) 30000 0 0).PEDALS.APPS1 ≤ 1 / 20 := by
    norm_num [drivingCar, pedalCar]
  have hb : ¬ ((drivingCar 0 0 (1 / 2) (1 / 2) 30000 0 0).PEDALS.BrakePressureF
      + (drivingCar 0 0 (1 / 2) (1 / 2) 30000 0 0).PEDALS.BrakePressureR) / 2 < 1 / 20 := by
    norm_num [drivingCar, pedalCar]
  have hw := ((drive_regen_rows sampleGlobals (drivingCar 0 0 (1 / 2) (1 / 2) 30000 0 0) false
    Mode.ENDURANCE sampleTune).1 ht).2 hb
  ⟨ht, hb, hw.1, hw.2.1⟩

/-! ## The classifier reads the snapshot only -/

/-- C16: the predicates `critical_can_failure`, `warn_can_failure`,
`rev_limit_exceeded`, `rtd_brake_fault`, `AMS_fault`, `IMD_fault` and
`BSPD_fault` read the ages, the pedal values, the erpm and the pin readings and
nothing else, and change nothing.  On two cars that show the same snapshot, with
the same pin readings, every predicate returns the same value and the set of
active faults is the same, whatever else differs between the cars (the command
written by a step between two evaluations, the DC current, the accumulator
values); in particular a second evaluation on the same snapshot, also after the
two actuator writes of a step, yields the first set again. -/
theorem classifier_pure (REV_LIMIT : ℚ) (Car Car2 : iCANflex) (pins : PinReads)
    (h : same_snapshot Car Car2) :
    (∀ f : FaultId, f.eval REV_LIMIT Car pins = f.eval REV_LIMIT Car2 pins) ∧
    fault_set REV_LIMIT Car pins = fault_set REV_LIMIT Car2 pins ∧
    (∀ (e : Int) (c : ℚ),
      fault_set REV_LIMIT ((Car.setDriveEnable e).setRCurrent c) pins
        = fault_set REV_LIMIT Car pins) := by
  have key : ∀ A B : iCANflex, same_snapshot A B →
      ∀ f : FaultId, f.eval REV_LIMIT A pins = f.eval REV_LIMIT B pins := by
    intro A B hAB f
    obtain ⟨⟨a1, a2, a3, a4, a5, a6⟩, ⟨w1, w2, w3, w4, w5, w6⟩, ⟨p1, p2, p3, p4⟩, he⟩ := hAB
    cases f
    · simp only [FaultId.eval, SystemsCheck.critical_can_failure, a1, a2, a3, a4, a5, a6]
    · simp only [FaultId.eval, SystemsCheck.warn_can_failure, w1, w2, w3, w4, w5, w6]
    · simp only [FaultId.eval, SystemsCheck.rev_limit_exceeded, he]
    · simp only [FaultId.eval, SystemsCheck.rtd_brake_fault, p1, p2, p3, p4]
    · rfl
    · rfl
    · rfl
  have set_eq : ∀ A B : iCANflex, same_snapshot A B →
      fault_set REV_LIMIT A pins = fault_set REV_LIMIT B pins := by
    intro A B hAB
    unfold fault_set
    congr 1
    funext f
    exact key A B hAB f
  refine ⟨key Car Car2 h, set_eq Car Car2 h, fun e c => set_eq _ _ ?_⟩
  exact ⟨⟨rfl, rfl, rfl, rfl, rfl, rfl⟩, ⟨rfl, rfl, rfl, rfl, rfl, rfl⟩, ⟨rfl, rfl, rfl, rfl⟩,
    rfl⟩

/-- Witness for C16: `staleCar` and the same car after a step has zeroed the
command; both give the set `{critical_can_failure, BSPD_fault}`. -/
theorem classifier_pure_witness :
    same_snapshot staleCar ((staleCar.setDriveEnable 0).setRCurrent 0) ∧
    fault_set 5500 staleCar samplePins
      = fault_set 5500 ((staleCar.setDriveEnable 0).setRCurrent 0) samplePins ∧
    fault_set 5500 staleCar samplePins
      = [FaultId.critical_can_failure, FaultId.BSPD_fault] :=
  ⟨by decide!,
    (classifier_pure 5500 staleCar ((staleCar.setDriveEnable 0).setRCurrent 0) samplePins
      (by decide!)).2.1,
    by decide!⟩

/-! ## The latch `BSE_APPS_violation` -/

/-- How one step of `machine.cpp` changes the latch: it keeps its value except
in `drive_null` with the latch set and throttle below 0.05, which clears it,
and in `drive_torque` on the co-activation branch, which sets it. -/
theorem Main.dispatch_latch {F : Type} [DecidableEq F] (pow : ℚ → ℚ → ℚ)
    (call : F → iCANflex → Bool) (SD_begin : List Bool) (gr24 : List ℚ) (junk : ℚ)
    (P Q : Main.Program F) (h : Main.dispatch pow call SD_begin gr24 junk P = some Q) :
    (Q.BSE_APPS_violation ≠ P.BSE_APPS_violation →
      (P.state = MachineCpp.State.DRIVE_NULL ∧ P.BSE_APPS_violation = true ∧
        (P.Car.PEDALS.APPS1 + P.Car.PEDALS.APPS2) / 2 < 1 / 20) ∨
      (P.state = MachineCpp.State.DRIVE_TORQUE ∧ P.BSE_APPS_violation = false ∧
        ¬ |P.Car.PEDALS.APPS1 - 2 * P.Car.PEDALS.APPS2| > 1 / 10 ∧
        (P.Car.PEDALS.BrakePressureF + P.Car.PEDALS.BrakePressureR) / 2 > 1 / 20 ∧
        P.Car.PEDALS.APPS1 > 1 / 4)) := by
  unfold Main.dispatch at h
  intro hne
  cases hs : P.state
  case ERROR =>
    simp only [hs] at h
    cases he : P.errorCheck with
    | none => simp [he] at h
    | some f =>
      simp only [he, Option.some.injEq] at h
      rw [← h] at hne
      exact absurd rfl hne
  case ECU_FLASH =>
    simp only [hs] at h
    cases hf : MachineCpp.ecu_flash SD_begin gr24 junk P.Car P.G with
    | none => simp [hf] at h
    | some r =>
      simp only [hf, Option.some.injEq] at h
      rw [← h] at hne
      exact absurd rfl hne
  case DRIVE_NULL =>
    simp only [hs, Option.some.injEq] at h
    rw [← h] at hne
    left
    cases hv : P.BSE_APPS_violation
    · rw [hv] at hne
      exact absurd (MachineCpp.drive_null_unlatched P.Car P.mode).2.2.2 hne
    · rw [hv] at hne
      refine ⟨rfl, rfl, ?_⟩
      by_contra hc
      exact hne ((MachineCpp.drive_null_latched P.Car P.mode).2.2 hc)
  case DRIVE_TORQUE =>
    simp only [hs, Option.some.injEq] at h
    rw [← h] at hne
    right
    by_cases ha : |P.Car.PEDALS.APPS1 - 2 * P.Car.PEDALS.APPS2| > 1 / 10
    · rw [MachineCpp.drive_torque_of_apps pow P.G P.Car _ P.mode ha] at hne
      exact absurd rfl hne
    · by_cases hb : (P.Car.PEDALS.BrakePressureF + P.Car.PEDALS.BrakePressureR) / 2 > 1 / 20 ∧
          P.Car.PEDALS.APPS1 > 1 / 4
      · rw [MachineCpp.drive_torque_of_bse pow P.G P.Car _ P.mode ha hb] at hne
        cases hv : P.BSE_APPS_violation
        · exact ⟨rfl, rfl, ha, hb.1, hb.2⟩
        · rw [hv] at hne
          exact absurd rfl hne
      · rw [MachineCpp.drive_torque_of_ok pow P.G P.Car _ P.mode ha hb] at hne
        exact absurd rfl hne
  case DRIVE_REGEN =>
    simp only [hs, Option.some.injEq] at h
    rw [← h] at hne
    exfalso
    apply hne
    simp only [MachineCpp.drive_regen]
    split_ifs <;> rfl
  all_goals
    simp only [hs, Option.some.injEq] at h
    rw [← h] at hne
    exact absurd rfl hne

/-- C19: the latch is cleared only in standby.  In `machine.cpp`, for every
state other than `DRIVE_NULL` a latch that is set before the step is set after
it; a step that clears it is `drive_null` with throttle below 0.05, and a step
that sets it is `drive_torque` on the co-activation branch.  In `machine.hpp`
the only steps that receive the latch are `drive_standby`, `drive_active` and
`drive_regen`: `drive_active` keeps a set latch and sets a clear one exactly on
the co-activation branch, `drive_regen` and `drive_standby` leave it as it
is. -/
theorem latch_cleared_only_in_standby {F : Type} [DecidableEq F] (pow : ℚ → ℚ → ℚ)
    (call : F → iCANflex → Bool) (SD_begin : List Bool) (gr24 : List ℚ) (junk : ℚ)
    (P : Main.Program F) (Car : iCANflex) (v : Bool) (mode : Mode) (tune : Tune)
    (comms : CANComms) :
    (∀ Q, Main.dispatch pow call SD_begin gr24 junk P = some Q →
      P.state ≠ MachineCpp.State.DRIVE_NULL → P.BSE_APPS_violation = true →
      Q.BSE_APPS_violation = true) ∧
    (∀ Q, Main.dispatch pow call SD_begin gr24 junk P = some Q →
      P.BSE_APPS_violation = true → Q.BSE_APPS_violation = false →
      P.state = MachineCpp.State.DRIVE_NULL ∧
        (P.Car.PEDALS.APPS1 + P.Car.PEDALS.APPS2) / 2 < 1 / 20) ∧
    (∀ Q, Main.dispatch pow call SD_begin gr24 junk P = some Q →
      P.BSE_APPS_violation = false → Q.BSE_APPS_violation = true →
      P.state = MachineCpp.State.DRIVE_TORQUE ∧
        ¬ |P.Car.PEDALS.APPS1 - 2 * P.Car.PEDALS.APPS2| > 1 / 10 ∧
        (P.Car.PEDALS.BrakePressureF + P.Car.PEDALS.BrakePressureR) / 2 > 1 / 20 ∧
        P.Car.PEDALS.APPS1 > 1 / 4) ∧
    ((MachineHpp.drive_active pow Car true mode tune comms).2.2.1 = true ∧
      (MachineHpp.drive_regen Car v mode tune).2.2 = v ∧
      (MachineHpp.drive_standby Car v mode).2.2 = v ∧
      ((MachineHpp.drive_active pow Car false mode tune comms).2.2.1 = true ↔
        ¬ |Car.PEDALS.APPS1 - 2 * Car.PEDALS.APPS2| > 1 / 10 ∧
          (Car.PEDALS.BrakePressureF + Car.PEDALS.BrakePressureR) / 2 > 1 / 20 ∧
          Car.PEDALS.APPS1 > 1 / 4)) := by
  refine ⟨?_, ?_, ?_, ?_, ?_, rfl, ?_⟩
  · intro Q hQ hs hv
    by_contra hq
    have hne : Q.BSE_APPS_violation ≠ P.BSE_APPS_violation := by rw [hv]; exact hq
    rcases Main.dispatch_latch pow call SD_begin gr24 junk P Q hQ hne with h1 | h2
    · exact hs h1.1
    · rw [hv] at h2
      exact absurd h2.2.1 (by simp)
  · intro Q hQ hv hq
    have hne : Q.BSE_APPS_violation ≠ P.BSE_APPS_violation := by rw [hv, hq]; simp
    rcases Main.dispatch_latch pow call SD_begin gr24 junk P Q hQ hne with h1 | h2
    · exact ⟨h1.1, h1.2.2⟩
    · rw [hv] at h2
      exact absurd h2.2.1 (by simp)
  · intro Q hQ hv hq
    have hne : Q.BSE_APPS_violation ≠ P.BSE_APPS_violation := by rw [hv, hq]; simp
    rcases Main.dispatch_latch pow call SD_begin gr24 junk P Q hQ hne with h1 | h2
    · rw [hv] at h1
      exact absurd h1.2.1 (by simp)
    · exact ⟨h2.1, h2.2.2⟩
  · simp only [MachineHpp.drive_active]
    split_ifs <;> rfl
  · simp only [MachineHpp.drive_regen]
    split_ifs <;> rfl
  · by_cases ha : |Car.PEDALS.APPS1 - 2 * Car.PEDALS.APPS2| > 1 / 10
    · rw [MachineHpp.drive_active_of_apps pow Car false mode tune comms ha]
      exact iff_of_false (by simp) (fun hc => hc.1 ha)
    · by_cases hb : (Car.PEDALS.BrakePressureF + Car.PEDALS.BrakePressureR) / 2 > 1 / 20 ∧
          Car.PEDALS.APPS1 > 1 / 4
      · rw [MachineHpp.drive_active_of_bse pow Car false mode tune comms ha hb]
        exact iff_of_true rfl ⟨ha, hb⟩
      · rw [MachineHpp.drive_active_of_ok pow Car false mode tune comms ha hb]
        exact iff_of_false (by simp) (fun hc => hb hc.2)

/-- Witness for C19: a `PRECHARGING` step with the latch set keeps it set. -/
theorem latch_cleared_only_in_standby_witness :
    ∃ Q, Main.dispatch whole_pow FaultPtr.call [true] [] 0
        (sampleProgram MachineCpp.State.PRECHARGING restCar true []) = some Q ∧
      Q.BSE_APPS_violation = true :=
  ⟨_, rfl,
    (latch_cleared_only_in_standby whole_pow FaultPtr.call [true] [] 0
      (sampleProgram MachineCpp.State.PRECHARGING restCar true []) restCar true Mode.ENDURANCE
      sampleTune ⟨[]⟩).1 _ rfl (by decide) rfl⟩

/-! ## Monotonicity of the torque request in the throttle -/

/-- The spec's `clip` does not decrease when its argument grows. -/
theorem clip_mono (z1 z2 : ℚ) (h : z1 ≤ z2) : clip z1 0 1 ≤ clip z2 0 1 := by
  unfold clip
  exact max_le_max (le_refl 0) (min_le_min h (le_refl 1))

/-- Below zero the spec's `clip` is zero, the least value it takes. -/
theorem clip_of_nonpos (z1 z2 : ℚ) (h : z1 ≤ 0) : clip z1 0 1 ≤ clip z2 0 1 := by
  unfold clip
  have h1 : max 0 (min z1 1) = 0 := max_eq_left (le_trans (min_le_left z1 1) h)
  rw [h1]
  exact le_max_left 0 _

/-- The unclipped multiplier `x - (1 - x)*(x + b)*w*k` with `w*k ≥ 0` and
`b ≥ 0`: once it is positive at a throttle `x1 ≥ 0` it does not decrease for
larger throttle. -/
theorem multiplier_increasing (w k b x1 x2 : ℚ) (hw : 0 ≤ w) (hk : 0 ≤ k) (hb : 0 ≤ b)
    (hx1 : 0 ≤ x1) (h12 : x1 ≤ x2)
    (hpos : 0 < x1 - (1 - x1) * (x1 + b) * w * k) :
    x1 - (1 - x1) * (x1 + b) * w * k ≤ x2 - (1 - x2) * (x2 + b) * w * k := by
  have hc : 0 ≤ w * k := mul_nonneg hw hk
  have hcb : 0 ≤ w * k * b := mul_nonneg hc hb
  have hprod : 0 < x1 * (1 - w * k + w * k * b + w * k * x1) := by
    have he : x1 * (1 - w * k + w * k * b + w * k * x1)
        = (x1 - (1 - x1) * (x1 + b) * w * k) + w * k * b := by ring
    rw [he]
    exact add_pos_of_pos_of_nonneg hpos hcb
  have hx1pos : 0 < x1 := by
    rcases lt_or_eq_of_le hx1 with hlt | heq
    · exact hlt
    · rw [← heq] at hprod
      simp at hprod
  have hD : 0 < 1 - w * k + w * k * b + w * k * x1 :=
    (pos_iff_pos_of_mul_pos hprod).mp hx1pos
  have hx2 : 0 ≤ x2 := le_trans hx1 h12
  have hfac : 0 ≤ (x2 - x1) * ((1 - w * k + w * k * b + w * k * x1) + w * k * x2) :=
    mul_nonneg (sub_nonneg.mpr h12) (add_nonneg (le_of_lt hD) (mul_nonneg hc hx2))
  have hdiff : (x2 - (1 - x2) * (x2 + b) * w * k) - (x1 - (1 - x1) * (x1 + b) * w * k)
      = (x2 - x1) * ((1 - w * k + w * k * b + w * k * x1) + w * k * x2) := by ring
  linarith

/-- The spec's formula does not decrease in the throttle. -/
theorem spec_requested_current_mono (pow : ℚ → ℚ → ℚ) (x1 x2 y k p b limit : ℚ)
    (hw : 0 ≤ pow y p) (hk : 0 ≤ k) (hb : 0 ≤ b) (hlimit : 0 ≤ limit)
    (hx1 : 0 ≤ x1) (h12 : x1 ≤ x2) :
    spec_requested_current pow x1 y k p b limit
      ≤ spec_requested_current pow x2 y k p b limit := by
  unfold spec_requested_current
  apply mul_le_mul_of_nonneg_right _ hlimit
  by_cases hpos : 0 < x1 - (1 - x1) * (x1 + b) * pow y p * k
  · exact clip_mono _ _ (multiplier_increasing (pow y p) k b x1 x2 hw hk hb hx1 h12 hpos)
  · exact clip_of_nonpos _ _ (not_lt.mp hpos)

/-- C20: `requested_torque` (both revisions) does not decrease in the throttle.
For a fixed rpm with load `y = rpm / rev_limit ≥ 0` (also above 1), a profile
with `K ≥ 0` and `B ≥ 0`, a non-negative current limit, a `pow` that is
non-negative on a non-negative base, and throttles `0 ≤ x1 ≤ x2`, the request
at `x1` is at most the request at `x2`.  The upper bounds the claim puts on
throttle, `K`, `B` and `P` are not needed. -/
theorem requested_torque_monotone (pow : ℚ → ℚ → ℚ) (G : MachineCpp.Globals)
    (Car : iCANflex) (x1 x2 : ℚ) (rpm : Int) (tune : Tune)
    (hpow : ∀ y p : ℚ, 0 ≤ y → 0 ≤ pow y p)
    (hy : 0 ≤ (rpm : ℚ) / tune.revLimit) (hyG : 0 ≤ (rpm : ℚ) / G.REV_LIMIT)
    (hK : 0 ≤ tune.ActiveTorqueProfile.K) (hB : 0 ≤ tune.ActiveTorqueProfile.B)
    (hKG : 0 ≤ (G.TORQUE_PROFILES G.throttle_map).K)
    (hBG : 0 ≤ (G.TORQUE_PROFILES G.throttle_map).B)
    (hlimit : 0 ≤ tune.ActiveCurrentLimit) (hlimitG : 0 ≤ G.POWER_LEVELS G.power_level)
    (hx1 : 0 ≤ x1) (h12 : x1 ≤ x2) :
    MachineHpp.requested_torque pow Car x1 rpm tune
        ≤ MachineHpp.requested_torque pow Car x2 rpm tune ∧
    MachineCpp.requested_torque pow G Car x1 rpm
        ≤ MachineCpp.requested_torque pow G Car x2 rpm := by
  rw [MachineHpp.requested_torque_eq_spec, MachineHpp.requested_torque_eq_spec,
    MachineCpp.requested_torque_eq_spec_cpp, MachineCpp.requested_torque_eq_spec_cpp]
  exact ⟨spec_requested_current_mono pow x1 x2 _ _ _ _ _ (hpow _ _ hy) hK hB hlimit hx1 h12,
    spec_requested_current_mono pow x1 x2 _ _ _ _ _ (hpow _ _ hyG) hKG hBG hlimitG hx1 h12⟩

/-- The sample `whole_pow` is non-negative on a non-negative base. -/
theorem whole_pow_nonneg (y p : ℚ) (hy : 0 ≤ y) : 0 ≤ whole_pow y p :=
  pow_nonneg hy _

/-- Witness for C20: throttles 0.25 and 0.75 at 8000 rpm, a load above 1, with
`sampleTune` and `sampleGlobals`. -/
theorem requested_torque_monotone_witness :
    MachineHpp.requested_torque whole_pow restCar (1 / 4) 8000 sampleTune
        ≤ MachineHpp.requested_torque whole_pow restCar (3 / 4) 8000 sampleTune ∧
    MachineCpp.requested_torque whole_pow sampleGlobals restCar (1 / 4) 8000
        ≤ MachineCpp.requested_torque whole_pow sampleGlobals restCar (3 / 4) 8000 :=
  requested_torque_monotone whole_pow sampleGlobals restCar (1 / 4) (3 / 4) 8000 sampleTune
    whole_pow_nonneg (by norm_num [sampleTune]) (by norm_num [sampleGlobals])
    (by norm_num [sampleTune]) (by norm_num [sampleTune]) (by norm_num [sampleGlobals])
    (by norm_num [sampleGlobals]) (by norm_num [sampleTune]) (by norm_num [sampleGlobals])
    (by norm_num) (by norm_num)

/-! ## The torque request against the throttle demand -/

/-- The spec's formula never exceeds `x * limit`: the shaping term
`(1 - x)*(x + b)*(y^p)*k` is not negative for `0 ≤ x ≤ 1`. -/
theorem spec_requested_current_le (pow : ℚ → ℚ → ℚ) (x y k p b limit : ℚ)
    (hw : 0 ≤ pow y p) (hk : 0 ≤ k) (hb : 0 ≤ b) (hlimit : 0 ≤ limit)
    (hx0 : 0 ≤ x) (hx1 : x ≤ 1) :
    spec_requested_current pow x y k p b limit ≤ x * limit := by
  unfold spec_requested_current clip
  apply mul_le_mul_of_nonneg_right _ hlimit
  have hterm : 0 ≤ (1 - x) * (x + b) * pow y p * k :=
    mul_nonneg (mul_nonneg (mul_nonneg (sub_nonneg.mpr hx1) (add_nonneg hx0 hb)) hw) hk
  have hz : x - (1 - x) * (x + b) * pow y p * k ≤ x := sub_le_self x hterm
  exact max_le hx0 (le_trans (min_le_left _ _) hz)

/-- At zero throttle the spec's formula gives no current. -/
theorem spec_requested_current_zero (pow : ℚ → ℚ → ℚ) (y k p b limit : ℚ)
    (hw : 0 ≤ pow y p) (hk : 0 ≤ k) (hb : 0 ≤ b) :
    spec_requested_current pow 0 y k p b limit = 0 := by
  unfold spec_requested_current clip
  have hterm : 0 ≤ (1 - 0) * (0 + b) * pow y p * k := by
    have h1 : (0 : ℚ) ≤ 1 - 0 := by norm_num
    have h2 : (0 : ℚ) ≤ 0 + b := by simpa using hb
    exact mul_nonneg (mul_nonneg (mul_nonneg h1 h2) hw) hk
  have hz : (0 : ℚ) - (1 - 0) * (0 + b) * pow y p * k ≤ 0 := by linarith
  rw [max_eq_left (le_trans (min_le_left _ _) hz), zero_mul]

/-- C21: the torque request never exceeds the throttle demand.  For every
throttle `0 ≤ x ≤ 1`, every rpm with load `y = rpm / rev_limit ≥ 0`, every
profile with `K ≥ 0` and `B ≥ 0`, every non-negative current limit and a `pow`
that is non-negative on a non-negative base, `requested_torque` (both
revisions) is at most `x * current_limit`; at zero throttle it is 0, for every
such rpm and profile and every limit.  The upper bounds the claim puts on `K`,
`B` and `P` are not needed. -/
theorem requested_torque_le_throttle (pow : ℚ → ℚ → ℚ) (G : MachineCpp.Globals)
    (Car : iCANflex) (x : ℚ) (rpm : Int) (tune : Tune)
    (hpow : ∀ y p : ℚ, 0 ≤ y → 0 ≤ pow y p)
    (hy : 0 ≤ (rpm : ℚ) / tune.revLimit) (hyG : 0 ≤ (rpm : ℚ) / G.REV_LIMIT)
    (hK : 0 ≤ tune.ActiveTorqueProfile.K) (hB : 0 ≤ tune.ActiveTorqueProfile.B)
    (hKG : 0 ≤ (G.TORQUE_PROFILES G.throttle_map).K)
    (hBG : 0 ≤ (G.TORQUE_PROFILES G.throttle_map).B)
    (hlimit : 0 ≤ tune.ActiveCurrentLimit) (hlimitG : 0 ≤ G.POWER_LEVELS G.power_level)
    (hx0 : 0 ≤ x) (hx1 : x ≤ 1) :
    (MachineHpp.requested_torque pow Car x rpm tune ≤ x * tune.ActiveCurrentLimit ∧
      MachineCpp.requested_torque pow G Car x rpm ≤ x * G.POWER_LEVELS G.power_level) ∧
    (MachineHpp.requested_torque pow Car 0 rpm tune = 0 ∧
      MachineCpp.requested_torque pow G Car 0 rpm = 0) := by
  rw [MachineHpp.requested_torque_eq_spec, MachineHpp.requested_torque_eq_spec,
    MachineCpp.requested_torque_eq_spec_cpp, MachineCpp.requested_torque_eq_spec_cpp]
  exact ⟨⟨spec_requested_current_le pow x _ _ _ _ _ (hpow _ _ hy) hK hB hlimit hx0 hx1,
      spec_requested_current_le pow x _ _ _ _ _ (hpow _ _ hyG) hKG hBG hlimitG hx0 hx1⟩,
    spec_requested_current_zero pow _ _ _ _ _ (hpow _ _ hy) hK hB,
    spec_requested_current_zero pow _ _ _ _ _ (hpow _ _ hyG) hKG hBG⟩

/-- Witness for C21: throttle 0.5 at 2000 rpm with `sampleTune` and
`sampleGlobals`, where the request is at most 50 A, and zero throttle, where it
is 0 A. -/
theorem requested_torque_le_throttle_witness :
    (MachineHpp.requested_torque whole_pow restCar (1 / 2) 2000 sampleTune
        ≤ 1 / 2 * sampleTune.ActiveCurrentLimit ∧
      MachineCpp.requested_torque whole_pow sampleGlobals restCar (1 / 2) 2000
        ≤ 1 / 2 * sampleGlobals.POWER_LEVELS sampleGlobals.power_level) ∧
    (MachineHpp.requested_torque whole_pow restCar 0 2000 sampleTune = 0 ∧
      MachineCpp.requested_torque whole_pow sampleGlobals restCar 0 2000 = 0) :=
  requested_torque_le_throttle whole_pow sampleGlobals restCar (1 / 2) 2000 sampleTune
    whole_pow_nonneg (by norm_num [sampleTune]) (by norm_num [sampleGlobals])
    (by norm_num [sampleTune]) (by norm_num [sampleTune]) (by norm_num [sampleGlobals])
    (by norm_num [sampleGlobals]) (by norm_num [sampleTune]) (by norm_num [sampleGlobals])
    (by norm_num) (by norm_num)

/-! ## Startup brake plausibility -/

/-- C23: `rtd_brake_fault` returns false exactly when both accelerator sensors
are released (`apps1 ≤ 0.05` and `apps2 ≤ 0.05`) and both brake circuits are
pressed (front and rear pressure above 0.05); it returns true exactly when one
accelerator sensor reads above 0.05 or one brake pressure is at most 0.05. -/
theorem rtd_brake_fault_iff (Car : iCANflex) :
    (SystemsCheck.rtd_brake_fault Car = false ↔
      (Car.PEDALS.APPS1 ≤ 1 / 20 ∧ Car.PEDALS.APPS2 ≤ 1 / 20) ∧
        (Car.PEDALS.BrakePressureF > 1 / 20 ∧ Car.PEDALS.BrakePressureR > 1 / 20)) ∧
    (SystemsCheck.rtd_brake_fault Car = true ↔
      Car.PEDALS.APPS1 > 1 / 20 ∨ Car.PEDALS.APPS2 > 1 / 20 ∨
        Car.PEDALS.BrakePressureF ≤ 1 / 20 ∨ Car.PEDALS.BrakePressureR ≤ 1 / 20) := by
  by_cases h : Car.PEDALS.APPS1 > 1 / 20 ∨ Car.PEDALS.APPS2 > 1 / 20 ∨
      Car.PEDALS.BrakePressureF ≤ 1 / 20 ∨ Car.PEDALS.BrakePressureR ≤ 1 / 20
  · have hv : SystemsCheck.rtd_brake_fault Car = true := by
      simp only [SystemsCheck.rtd_brake_fault, if_pos h]
    rw [hv]
    refine ⟨iff_of_false (by simp) ?_, iff_of_true rfl h⟩
    rintro ⟨⟨h1, h2⟩, h3, h4⟩
    rcases h with h | h | h | h
    · exact absurd h (not_lt.mpr h1)
    · exact absurd h (not_lt.mpr h2)
    · exact absurd h3 (not_lt.mpr h)
    · exact absurd h4 (not_lt.mpr h)
  · have hv : SystemsCheck.rtd_brake_fault Car = false := by
      simp only [SystemsCheck.rtd_brake_fault, if_neg h]
    rw [hv]
    refine ⟨iff_of_true rfl ?_, iff_of_false (by simp) h⟩
    refine ⟨⟨?_, ?_⟩, ?_, ?_⟩
    · exact not_lt.mp (fun hc => h (Or.inl hc))
    · exact not_lt.mp (fun hc => h (Or.inr (Or.inl hc)))
    · exact not_le.mp (fun hc => h (Or.inr (Or.inr (Or.inl hc))))
    · exact not_le.mp (fun hc => h (Or.inr (Or.inr (Or.inr hc))))

/-! ## Where drive is enabled -/

/-- The car after a `DRIVE_TORQUE` step of `main.cpp` is the car `drive_torque`
returns. -/
theorem Main.dispatch_drive_torque {F : Type} [DecidableEq F] (pow : ℚ → ℚ → ℚ)
    (call : F → iCANflex → Bool) (SD_begin : List Bool) (gr24 : List ℚ) (junk : ℚ)
    (P Q : Main.Program F) (h : Main.dispatch pow call SD_begin gr24 junk P = some Q)
    (hs : P.state = MachineCpp.State.DRIVE_TORQUE) :
    Q.Car = (MachineCpp.drive_torque pow P.G P.Car P.BSE_APPS_violation P.mode).2.1 := by
  unfold Main.dispatch at h
  simp only [hs, Option.some.injEq] at h
  rw [← h]

/-- The car after a `DRIVE_REGEN` step of `main.cpp` is the car `drive_regen`
returns. -/
theorem Main.dispatch_drive_regen {F : Type} [DecidableEq F] (pow : ℚ → ℚ → ℚ)
    (call : F → iCANflex → Bool) (SD_begin : List Bool) (gr24 : List ℚ) (junk : ℚ)
    (P Q : Main.Program F) (h : Main.dispatch pow call SD_begin gr24 junk P = some Q)
    (hs : P.state = MachineCpp.State.DRIVE_REGEN) :
    Q.Car = (MachineCpp.drive_regen P.G P.Car P.BSE_APPS_violation P.mode).2.1 := by
  unfold Main.dispatch at h
  simp only [hs, Option.some.injEq] at h
  rw [← h]

/-- C22: drive is enabled only from the two driving states.  In `machine.cpp`,
over the whole `switch` of `main.cpp`: a step that changes the car and leaves
drive-enable 1 or a non-zero requested current is `drive_torque` with both
checks passed or `drive_regen` with throttle at most 0.05 and brake at least
0.05; every other state's step ends with drive-enable 0 and requested current
0.  In `machine.hpp`: `ecu_flash`, `glv_on` and `drive_standby` return the car
as received; `ts_precharge`, `precharging`, `precharge_complete` and `error` end
with drive-enable 0 and requested current 0; `drive_active` changes the car
only with both checks passed and `drive_regen` only with throttle at most 0.05
and brake at least 0.05. -/
theorem drive_enabled_only_when_driving {F : Type} [DecidableEq F] (pow : ℚ → ℚ → ℚ)
    (call : F → iCANflex → Bool) (callT : F → iCANflex → Tune → Bool)
    (SD_begin : List Bool) (gr24 : List ℚ) (junk : ℚ) (P : Main.Program F)
    (Car : iCANflex) (v : Bool) (mode : Mode) (tune : Tune) (comms : CANComms)
    (errorCheck : F) (active_faults : List F) :
    (∀ Q, Main.dispatch pow call SD_begin gr24 junk P = some Q →
      Q.Car ≠ P.Car → (Q.Car.DTI.DriveEnable = 1 ∨ Q.Car.DTI.RCurrent ≠ 0) →
      (P.state = MachineCpp.State.DRIVE_TORQUE ∧
        ¬ |P.Car.PEDALS.APPS1 - 2 * P.Car.PEDALS.APPS2| > 1 / 10 ∧
        ¬ ((P.Car.PEDALS.BrakePressureF + P.Car.PEDALS.BrakePressureR) / 2 > 1 / 20 ∧
          P.Car.PEDALS.APPS1 > 1 / 4)) ∨
      (P.state = MachineCpp.State.DRIVE_REGEN ∧ P.Car.PEDALS.Throttle ≤ 1 / 20 ∧
        (P.Car.PEDALS.BrakePressureF + P.Car.PEDALS.BrakePressureR) / 2 ≥ 1 / 20)) ∧
    (∀ Q, Main.dispatch pow call SD_begin gr24 junk P = some Q →
      P.state ≠ MachineCpp.State.DRIVE_TORQUE → P.state ≠ MachineCpp.State.DRIVE_REGEN →
      Q.Car.DTI.DriveEnable = 0 ∧ Q.Car.DTI.RCurrent = 0) ∧
    ((MachineHpp.ecu_flash Car).2 = Car ∧ (MachineHpp.glv_on Car).2 = Car ∧
      (MachineHpp.drive_standby Car v mode).2.1 = Car) ∧
    (((MachineHpp.ts_precharge Car).2.DTI.DriveEnable = 0 ∧
        (MachineHpp.ts_precharge Car).2.DTI.RCurrent = 0) ∧
      ((MachineHpp.precharging Car).2.DTI.DriveEnable = 0 ∧
        (MachineHpp.precharging Car).2.DTI.RCurrent = 0) ∧
      ((MachineHpp.precharge_complete Car).2.DTI.DriveEnable = 0 ∧
        (MachineHpp.precharge_complete Car).2.DTI.RCurrent = 0) ∧
      ((MachineHpp.error callT Car tune errorCheck active_faults).2.1.DTI.DriveEnable = 0 ∧
        (MachineHpp.error callT Car tune errorCheck active_faults).2.1.DTI.RCurrent = 0)) ∧
    ((MachineHpp.drive_active pow Car v mode tune comms).2.1 ≠ Car →
      ¬ |Car.PEDALS.APPS1 - 2 * Car.PEDALS.APPS2| > 1 / 10 ∧
        ¬ ((Car.PEDALS.BrakePressureF + Car.PEDALS.BrakePressureR) / 2 > 1 / 20 ∧
          Car.PEDALS.APPS1 > 1 / 4)) ∧
    ((MachineHpp.drive_regen Car v mode tune).2.1 ≠ Car →
      Car.PEDALS.APPS1 ≤ 1 / 20 ∧
        (Car.PEDALS.BrakePressureF + Car.PEDALS.BrakePressureR) / 2 ≥ 1 / 20) := by
  refine ⟨?_, ?_, ⟨rfl, rfl, rfl⟩, ?_, ?_, ?_⟩
  · intro Q hQ hne hcmd
    by_cases ht : P.state = MachineCpp.State.DRIVE_TORQUE
    · left
      rw [Main.dispatch_drive_torque pow call SD_begin gr24 junk P Q hQ ht] at hne
      by_cases ha : |P.Car.PEDALS.APPS1 - 2 * P.Car.PEDALS.APPS2| > 1 / 10
      · rw [MachineCpp.drive_torque_of_apps pow P.G P.Car _ P.mode ha] at hne
        exact absurd rfl hne
      · by_cases hb : (P.Car.PEDALS.BrakePressureF + P.Car.PEDALS.BrakePressureR) / 2
            > 1 / 20 ∧ P.Car.PEDALS.APPS1 > 1 / 4
        · rw [MachineCpp.drive_torque_of_bse pow P.G P.Car _ P.mode ha hb] at hne
          exact absurd rfl hne
        · exact ⟨ht, ha, hb⟩
    · by_cases hr : P.state = MachineCpp.State.DRIVE_REGEN
      · right
        rw [Main.dispatch_drive_regen pow call SD_begin gr24 junk P Q hQ hr] at hne
        by_cases hth : P.Car.PEDALS.Throttle > 1 / 20
        · rw [MachineCpp.drive_regen_of_throttle_cpp P.G P.Car _ P.mode hth] at hne
          exact absurd rfl hne
        · by_cases hb : (P.Car.PEDALS.BrakePressureF + P.Car.PEDALS.BrakePressureR) / 2
              < 1 / 20
          · rw [MachineCpp.drive_regen_of_brake_cpp P.G P.Car _ P.mode hth hb] at hne
            exact absurd rfl hne
          · exact ⟨hr, not_lt.mp hth, not_lt.mp hb⟩
      · exfalso
        have hz := Main.dispatch_command pow call SD_begin gr24 junk P Q hQ ht hr
        rw [hz] at hcmd
        rcases hcmd with h1 | h2
        · simp at h1
        · exact h2 rfl
  · intro Q hQ ht hr
    rw [Main.dispatch_command pow call SD_begin gr24 junk P Q hQ ht hr]
    exact ⟨rfl, rfl⟩
  · refine ⟨?_, ?_, ⟨rfl, rfl⟩, ?_⟩
    · simp only [MachineHpp.ts_precharge]
      split_ifs <;> exact ⟨rfl, rfl⟩
    · simp only [MachineHpp.precharging]
      split_ifs <;> exact ⟨rfl, rfl⟩
    · simp only [MachineHpp.error]
      split_ifs <;> exact ⟨rfl, rfl⟩
  · intro hne
    by_cases ha : |Car.PEDALS.APPS1 - 2 * Car.PEDALS.APPS2| > 1 / 10
    · rw [MachineHpp.drive_active_of_apps pow Car v mode tune comms ha] at hne
      exact absurd rfl hne
    · by_cases hb : (Car.PEDALS.BrakePressureF + Car.PEDALS.BrakePressureR) / 2 > 1 / 20 ∧
          Car.PEDALS.APPS1 > 1 / 4
      · rw [MachineHpp.drive_active_of_bse pow Car v mode tune comms ha hb] at hne
        exact absurd rfl hne
      · exact ⟨ha, hb⟩
  · intro hne
    by_cases hth : Car.PEDALS.APPS1 > 1 / 20
    · rw [MachineHpp.drive_regen_of_throttle Car v mode tune hth] at hne
      exact absurd rfl hne
    · by_cases hb : (Car.PEDALS.BrakePressureF + Car.PEDALS.BrakePressureR) / 2 < 1 / 20
      · rw [MachineHpp.drive_regen_of_brake Car v mode tune hth hb] at hne
        exact absurd rfl hne
      · exact ⟨not_lt.mp hth, not_lt.mp hb⟩

/-- Witness for C22: an active step at throttle 0.5 from the zero command
changes the car, and both checks pass on it; a `PRECHARGING` step from the
command drive-enable 1 at 50 A ends with the zero command. -/
theorem drive_enabled_only_when_driving_witness :
    ((MachineHpp.drive_active whole_pow (drivingCar (1 / 2) (1 / 4) 0 0 27500 0 0) false
          Mode.ENDURANCE sampleTune ⟨[]⟩).2.1 ≠ drivingCar (1 / 2) (1 / 4) 0 0 27500 0 0 ∧
      ¬ |(drivingCar (1 / 2) (1 / 4) 0 0 27500 0 0).PEDALS.APPS1
          - 2 * (drivingCar (1 / 2) (1 / 4) 0 0 27500 0 0).PEDALS.APPS2| > 1 / 10) ∧
    ∃ Q, Main.dispatch whole_pow FaultPtr.call [true] [] 0
        (sampleProgram MachineCpp.State.PRECHARGING (drivingCar 0 0 0 0 0 1 50) false [])
          = some Q ∧
      Q.Car.DTI.DriveEnable = 0 ∧ Q.Car.DTI.RCurrent = 0 :=
  have hw := drive_enabled_only_when_driving whole_pow FaultPtr.call
    (fun f c _ => FaultPtr.call f c) [true] [] 0
    (sampleProgram MachineCpp.State.PRECHARGING (drivingCar 0 0 0 0 0 1 50) false [])
    (drivingCar (1 / 2) (1 / 4) 0 0 27500 0 0) false Mode.ENDURANCE sampleTune ⟨[]⟩
    FaultPtr.SDC_opened []
  have hne : (MachineHpp.drive_active whole_pow (drivingCar (1 / 2) (1 / 4) 0 0 27500 0 0)
      false Mode.ENDURANCE sampleTune ⟨[]⟩).2.1 ≠ drivingCar (1 / 2) (1 / 4) 0 0 27500 0 0 := by
    decide!
  ⟨⟨hne, (hw.2.2.2.2.1 hne).1⟩, _, rfl, hw.2.1 _ rfl (by decide) (by decide)⟩
